import Mathlib

/-!
Shallow embedding of the resource-reconciler pattern of this Terraform
provider repository, covering:

* `internal/service/waf/list_pages_gen.go` — the generated pagination loops;
* `internal/service/appmesh/virtual_node.go` — the Virtual Node resource
  (schema flags and the Create/Read/Update/Delete/Import lifecycle);
* `internal/service/transfer/access.go` — the Transfer Access resource.

Go `*string` wire fields are modelled as `Option String`; the Terraform SDK's
zero-value conventions (`d.GetOk` is true exactly when the stored value is not
the type's zero value; `d.Set` of a nil pointer stores the zero value) are
modelled directly on those representations.  Remote calls are modelled by
passing the remote's responses in as explicit arguments (a response stream for
polled reads).  Time-bounded retry windows (`propagationTimeout`) are modelled
by a fuel argument bounding the number of polls in the window.
-/

namespace TfAws

/-- Go's `aws.StringValue`: dereference a `*string`, `nil` becoming `""`. -/
def goStringValue (s : Option String) : String := s.getD ""

/-- Character-level model of Go's `strings.Split` with a one-character
separator: `goSplitChar sep cs` cuts `cs` at every occurrence of `sep`.
`goSplitChar sep [] = [[]]`, matching Go's `strings.Split("", "/") = [""]`. -/
def goSplitChar (sep : Char) : List Char → List (List Char)
  | [] => [[]]
  | c :: rest =>
    match goSplitChar sep rest with
    | [] => [[]]
    | g :: gs => if c = sep then [] :: g :: gs else (c :: g) :: gs

/-- Go's `strings.Split(s, sep)` for a one-character separator, modelled on the
underlying character list. -/
def goSplit (s : String) (sep : Char) : List String :=
  (goSplitChar sep s.data).map (fun cs => String.mk cs)

/-- AWS API errors as the reconcilers distinguish them: the service's
`ResourceNotFoundException` / `NotFoundException` code versus any other
failure (`tfawserr.ErrCodeEquals` checks only the code). -/
inductive AwsError where
  | notFound
  | other (msg : String)
deriving DecidableEq, Repr

/-- Remote-side model of a delete API used for the idempotent-delete
property: deleting a present object succeeds and removes it; deleting an
absent object answers the service's not-found error and leaves nothing.
Returns the error (if any) and the object's existence after the call. -/
def remoteDeleteModel (present : Bool) : Option AwsError × Bool :=
  if present then (none, false) else (some .notFound, false)

end TfAws

namespace Waf

open TfAws

/-- One page returned by a WAF `List*` call: the `NextMarker` wire field
(`*string`, so `Option String`) plus the page's items (kept abstract as a
list of names — the pagination loops never inspect them). -/
structure WafListOutput where
  nextMarker : Option String
  items : List String
deriving DecidableEq, Repr

/-- Outcome of a pagination loop run. -/
inductive ListOutcome where
  | ok
  | remoteErr (e : String)
  | fuelOut
deriving DecidableEq, Repr

/-- The body of the generated `list*Pages` loop
(`internal/service/waf/list_pages_gen.go`): call the remote with the current
`NextMarker`, return the error immediately on failure, otherwise compute
`lastPage := aws.StringValue(output.NextMarker) == ""`, invoke the callback,
break when the callback returns `false` or `lastPage` holds, else continue
from `output.NextMarker`.  The remote is a function from the marker sent to
the response; `fuel` bounds the number of iterations modelled (the Go loop
has no bound of its own; `ListOutcome.fuelOut` marks a run that was still
going).  Returns the log of remote calls made (marker sent, response
received), the callback invocations in order (page, `lastPage` flag), and
the outcome (`ok` models the Go function returning `nil`). -/
def listPagesLoop (resp : Option String → Except String WafListOutput)
    (fn : WafListOutput → Bool → Bool) :
    Option String → Nat →
      List (Option String × Except String WafListOutput) ×
        List (WafListOutput × Bool) × ListOutcome
  | _, 0 => ([], [], .fuelOut)
  | marker, fuel + 1 =>
    match resp marker with
    | .error e => ([(marker, .error e)], [], .remoteErr e)
    | .ok output =>
      let lastPage : Bool := goStringValue output.nextMarker == ""
      if fn output lastPage = false ∨ lastPage then
        ([(marker, .ok output)], [(output, lastPage)], .ok)
      else
        let r := listPagesLoop resp fn output.nextMarker fuel
        ((marker, .ok output) :: r.1, (output, lastPage) :: r.2.1, r.2.2)

/-- `listByteMatchSetsPages` from `list_pages_gen.go`.  All twelve generated
functions in that file (`listByteMatchSetsPages` … `listWebACLsPages`) are
token-for-token the same loop over their respective output types; this single
model stands for each of them. -/
def listByteMatchSetsPages (resp : Option String → Except String WafListOutput)
    (fn : WafListOutput → Bool → Bool) (initMarker : Option String) (fuel : Nat) :
    List (Option String × Except String WafListOutput) ×
      List (WafListOutput × Bool) × ListOutcome :=
  listPagesLoop resp fn initMarker fuel

/-- `listWebACLsPages` from `list_pages_gen.go`: the identical generated loop
instantiated at the `ListWebACLs` operation. -/
def listWebACLsPages (resp : Option String → Except String WafListOutput)
    (fn : WafListOutput → Bool → Bool) (initMarker : Option String) (fuel : Nat) :
    List (Option String × Except String WafListOutput) ×
      List (WafListOutput × Bool) × ListOutcome :=
  listPagesLoop resp fn initMarker fuel

end Waf

namespace Appmesh

open TfAws

/-- `appmesh.VirtualNodeStatusCodeActive`. -/
def VirtualNodeStatusCodeActive : String := "ACTIVE"

/-- `appmesh.VirtualNodeStatusCodeDeleted` — the status the Read handler
compares against. -/
def VirtualNodeStatusCodeDeleted : String := "DELETED"

/-- `appmesh.VirtualNodeStatusCodeInactive`. -/
def VirtualNodeStatusCodeInactive : String := "INACTIVE"

/-- The virtual node's `spec` block.  Its expand/flatten helpers
(`expandVirtualNodeSpec` / `flattenVirtualNodeSpec`) live outside the files
under `src/`; the lifecycle functions only pass the payload through, so it is
kept as an abstract value. -/
abbrev VNodeSpecPayload := String

/-- Modelled from the spec: `expandVirtualNodeSpec` is not under `src/` (only
its callers are).  The spec's desired→wire mapping translates the single
`spec` block (schema `MinItems: 1, MaxItems: 1` list) into a present-or-absent
wire substructure; modelled as taking the head of the one-element list. -/
def expandVirtualNodeSpec (l : List VNodeSpecPayload) : Option VNodeSpecPayload :=
  l.head?

/-- Modelled from the spec: `flattenVirtualNodeSpec` is not under `src/`.  The
spec's wire→desired mapping is the inverse of the Create mapping: an absent
wire block flattens to an absent/empty block, a present one to the
one-element list. -/
def flattenVirtualNodeSpec (w : Option VNodeSpecPayload) : List VNodeSpecPayload :=
  w.toList

/-- `appmesh.ResourceMetadata` (the fields the resource uses).  Timestamps are
kept as `Nat` (Unix time); the RFC3339 rendering is modelled by
`formatRFC3339`. -/
structure VNodeMetadata where
  arn : Option String
  uid : Option String
  meshOwner : Option String
  resourceOwner : Option String
  createdAt : Nat
  lastUpdatedAt : Nat
deriving DecidableEq, Repr

/-- `time.Time.Format(time.RFC3339)`, modelled abstractly (no claim depends
on the rendering). -/
def formatRFC3339 (t : Nat) : String := toString t

/-- `appmesh.VirtualNodeStatus`. -/
structure VNodeStatus where
  status : Option String
deriving DecidableEq, Repr

/-- `appmesh.VirtualNodeData`: the remote object returned by
`DescribeVirtualNode` / `CreateVirtualNode`. -/
structure VirtualNodeData where
  meshName : Option String
  virtualNodeName : Option String
  spec : Option VNodeSpecPayload
  metadata : VNodeMetadata
  status : VNodeStatus
deriving DecidableEq, Repr

/-- The tracked state (`*schema.ResourceData`) of one virtual node.  `id` is
`d.Id()` (`""` means absent, as in the SDK); `isNew` is `d.IsNewResource()`;
optional string attributes use the SDK's zero-value convention (`""` =
unset, so `d.GetOk` is false exactly on `""`). -/
structure VNodeState where
  id : String
  isNew : Bool
  name : String
  meshName : String
  meshOwner : String
  spec : List VNodeSpecPayload
  arn : String
  createdDate : String
  lastUpdatedDate : String
  resourceOwner : String
  tags : List (String × String)
  tagsAll : List (String × String)
deriving DecidableEq, Repr

/-- `appmesh.DescribeVirtualNodeInput` as built by the Read/Import handlers. -/
structure DescribeVirtualNodeInput where
  meshName : String
  virtualNodeName : String
  meshOwner : Option String
deriving DecidableEq, Repr

/-- The describe request Read builds from tracked state (lines 1023–1029):
`mesh_name` and `name` always, `mesh_owner` only when `d.GetOk` holds. -/
def describeVirtualNodeInput (d : VNodeState) : DescribeVirtualNodeInput :=
  { meshName := d.meshName
    virtualNodeName := d.name
    meshOwner := if d.meshOwner ≠ "" then some d.meshOwner else none }

/-- Result of the `resource.RetryContext` wrapper: either the final response,
a non-retryable error, or the window elapsing (`tfresource.TimedOut`). -/
inductive RetryResult where
  | ok (out : Option VirtualNodeData)
  | awsErr (e : AwsError)
  | timedOut
deriving DecidableEq, Repr

/-- The `resource.RetryContext(ctx, propagationTimeout, …)` loop inside
`resourceVirtualNodeRead` (lines 1033–1047): call `DescribeVirtualNode`; a
`NotFoundException` on a new resource is `RetryableError` (poll again), any
other error is `NonRetryableError`, success ends the loop.  `poll i` is the
remote's answer to the `i`-th call; `fuel` bounds the number of polls inside
the propagation window (the wall-clock `propagationTimeout` in the source).
Also returns the number of describe calls made. -/
def retryDescribeVirtualNode (isNew : Bool)
    (poll : Nat → Except AwsError (Option VirtualNodeData)) :
    Nat → Nat → RetryResult × Nat
  | i, 0 => (.timedOut, i)
  | i, fuel + 1 =>
    match poll i with
    | .error e =>
      if isNew ∧ e = .notFound then retryDescribeVirtualNode isNew poll (i + 1) fuel
      else (.awsErr e, i + 1)
    | .ok out => (.ok out, i + 1)

/-- `resourceVirtualNodeRead` (lines 1017–1108).  Control flow, in source
order: retry-wrapped describe; on `tfresource.TimedOut` one final direct
describe call (lines 1049–1051); `!d.IsNewResource() && NotFound` removes the
resource from state (`d.SetId("")`) and returns success; any remaining error
is a diagnostic; a nil `VirtualNode` is an "empty response" diagnostic; a
`DELETED` status is a diagnostic on a new resource and state removal
otherwise; then every attribute is refreshed from the wire response and tags
are listed (`ListTags`) and stored (the out-of-scope tag-filter helpers
`IgnoreAWS`/`IgnoreConfig`/`RemoveDefaultConfig` are modelled as the
identity).  Returns (new tracked state, diagnostic error if any, number of
describe calls made). -/
def resourceVirtualNodeRead (d : VNodeState)
    (describe : DescribeVirtualNodeInput → Nat → Except AwsError (Option VirtualNodeData))
    (listTags : String → Except AwsError (List (String × String)))
    (fuel : Nat) : VNodeState × Option String × Nat :=
  let poll := describe (describeVirtualNodeInput d)
  let r := retryDescribeVirtualNode d.isNew poll 0 fuel
  let r2 : Except AwsError (Option VirtualNodeData) × Nat :=
    match r with
    | (.timedOut, n) => (poll n, n + 1)
    | (.awsErr e, n) => (.error e, n)
    | (.ok out, n) => (.ok out, n)
  match r2 with
  | (.error e, n) =>
    if ¬ d.isNew ∧ e = .notFound then ({ d with id := "" }, none, n)
    else (d, some "reading App Mesh Virtual Node", n)
  | (.ok none, n) => (d, some "reading App Mesh Virtual Node: empty response", n)
  | (.ok (some vn), n) =>
    if goStringValue vn.status.status = VirtualNodeStatusCodeDeleted then
      if d.isNew then
        (d, some "reading App Mesh Virtual Node: DELETED after creation", n)
      else ({ d with id := "" }, none, n)
    else
      let arn := goStringValue vn.metadata.arn
      let d1 := { d with
        name := goStringValue vn.virtualNodeName
        meshName := goStringValue vn.meshName
        meshOwner := goStringValue vn.metadata.meshOwner
        arn := arn
        createdDate := formatRFC3339 vn.metadata.createdAt
        lastUpdatedDate := formatRFC3339 vn.metadata.lastUpdatedAt
        resourceOwner := goStringValue vn.metadata.resourceOwner
        spec := flattenVirtualNodeSpec vn.spec }
      match listTags arn with
      | .error _ => (d1, some "listing tags for App Mesh virtual node", n)
      | .ok tags => ({ d1 with tags := tags, tagsAll := tags }, none, n)

/-- `appmesh.CreateVirtualNodeInput` as built by `resourceVirtualNodeCreate`
(lines 995–1003). -/
structure CreateVirtualNodeInput where
  meshName : String
  virtualNodeName : String
  spec : Option VNodeSpecPayload
  tags : List (String × String)
  meshOwner : Option String
deriving DecidableEq, Repr

/-- `defaultTagsConfig.MergeTags` (tagging helper, out of scope per the spec):
modelled as appending the resource's own tags after the process-wide
defaults. -/
def mergeTags (defaults own : List (String × String)) : List (String × String) :=
  defaults ++ own

/-- `resourceVirtualNodeCreate` (lines 989–1015): build the create request
(spec expanded, merged tags, `mesh_owner` only when set), issue one create
call; on failure return the diagnostic; on success set the tracked id to the
provider-returned `Metadata.Uid` and chain into `resourceVirtualNodeRead`
with `IsNewResource` holding. -/
def resourceVirtualNodeCreate (d : VNodeState) (defaultTags : List (String × String))
    (create : CreateVirtualNodeInput → Except AwsError VirtualNodeData)
    (describe : DescribeVirtualNodeInput → Nat → Except AwsError (Option VirtualNodeData))
    (listTags : String → Except AwsError (List (String × String)))
    (fuel : Nat) : VNodeState × Option String × Nat :=
  let req : CreateVirtualNodeInput :=
    { meshName := d.meshName
      virtualNodeName := d.name
      spec := expandVirtualNodeSpec d.spec
      tags := mergeTags defaultTags d.tags
      meshOwner := if d.meshOwner ≠ "" then some d.meshOwner else none }
  match create req with
  | .error _ => (d, some "creating App Mesh virtual node", 0)
  | .ok vn =>
    resourceVirtualNodeRead
      { d with id := goStringValue vn.metadata.uid, isNew := true } describe listTags fuel

/-- `appmesh.UpdateVirtualNodeInput` as built by `resourceVirtualNodeUpdate`
(lines 1116–1123). -/
structure UpdateVirtualNodeInput where
  meshName : String
  virtualNodeName : String
  spec : Option VNodeSpecPayload
  meshOwner : Option String
deriving DecidableEq, Repr

/-- A remote mutating call issued by the virtual node's Update handler:
either `UpdateVirtualNode` or the tag side-channel `UpdateTags`. -/
inductive VNodeMutCall where
  | updateVirtualNode (input : UpdateVirtualNodeInput)
  | updateTags (arn : String) (old new : List (String × String))
deriving DecidableEq, Repr

/-- `resourceVirtualNodeUpdate` (lines 1110–1143).  `d.HasChange(k)` is
old-versus-new inequality of attribute `k`; `dOld`/`dNew` are the two sides
of the change (`d.Get` during update reads the new side, `d.GetChange`
returns both).  When `spec` changed, one `UpdateVirtualNode` call carrying the
new spec; when `tags_all` changed, one `UpdateTags` call on the tracked `arn`;
an error from either call aborts with a diagnostic.  (On success the source
then chains into `resourceVirtualNodeRead`, which issues no mutating call.)
Returns the mutating calls issued, in order, and the diagnostic if any. -/
def resourceVirtualNodeUpdate (dOld dNew : VNodeState)
    (updateResp : UpdateVirtualNodeInput → Option AwsError)
    (updateTagsResp : Option AwsError) : List VNodeMutCall × Option String :=
  let specStep : List VNodeMutCall × Option String :=
    if dOld.spec ≠ dNew.spec then
      let req : UpdateVirtualNodeInput :=
        { meshName := dNew.meshName
          virtualNodeName := dNew.name
          spec := expandVirtualNodeSpec dNew.spec
          meshOwner := if dNew.meshOwner ≠ "" then some dNew.meshOwner else none }
      ([.updateVirtualNode req],
        (updateResp req).map fun _ => "updating App Mesh virtual node")
    else ([], none)
  match specStep with
  | (calls, some e) => (calls, some e)
  | (calls, none) =>
    if dOld.tagsAll ≠ dNew.tagsAll then
      let call := VNodeMutCall.updateTags dNew.arn dOld.tagsAll dNew.tagsAll
      match updateTagsResp with
      | some _ => (calls ++ [call], some "updating App Mesh virtual node tags")
      | none => (calls ++ [call], none)
    else (calls, none)

/-- `appmesh.DeleteVirtualNodeInput` as built by `resourceVirtualNodeDelete`
(lines 1150–1153). -/
structure DeleteVirtualNodeInput where
  meshName : String
  virtualNodeName : String
deriving DecidableEq, Repr

/-- `resourceVirtualNodeDelete` (lines 1145–1164): one delete call; a
`NotFoundException` is success (idempotent delete), any other error is a
diagnostic.  Returns the diagnostic if any. -/
def resourceVirtualNodeDelete (d : VNodeState)
    (deleteResp : DeleteVirtualNodeInput → Option AwsError) : Option String :=
  let req : DeleteVirtualNodeInput := { meshName := d.meshName, virtualNodeName := d.name }
  match deleteResp req with
  | some .notFound => none
  | some (.other m) => some ("deleting App Mesh virtual node: " ++ m)
  | none => none

/-- A fresh `*schema.ResourceData` as an import handler receives it: only the
passed-in id is set. -/
def freshVNodeState (id : String) : VNodeState :=
  { id := id, isNew := false, name := "", meshName := "", meshOwner := "",
    spec := [], arn := "", createdDate := "", lastUpdatedDate := "",
    resourceOwner := "", tags := [], tagsAll := [] }

/-- `resourceVirtualNodeImport` (lines 1166–1191): split the import id on
`/`; anything but exactly two components is a malformed-reference error
before any remote call; otherwise describe `(mesh, name)` once, surface a
remote error, and on success seed the state with the provider uid and the
returned names.  Returns the result and the log of describe calls made. -/
def resourceVirtualNodeImport (id : String)
    (describe : DescribeVirtualNodeInput → Except AwsError VirtualNodeData) :
    Except String VNodeState × List DescribeVirtualNodeInput :=
  let parts := goSplit id '/'
  if parts.length = 2 then
    let mesh := parts.getD 0 ""
    let name := parts.getD 1 ""
    let req : DescribeVirtualNodeInput :=
      { meshName := mesh, virtualNodeName := name, meshOwner := none }
    match describe req with
    | .error e =>
      (.error (match e with | .notFound => "NotFoundException" | .other m => m), [req])
    | .ok vn =>
      (.ok { freshVNodeState (goStringValue vn.metadata.uid) with
               name := goStringValue vn.virtualNodeName
               meshName := goStringValue vn.meshName }, [req])
  else
    (.error ("wrong format of import ID (" ++ id ++
      "), use: 'mesh-name/virtual-node-name'"), [])

end Appmesh

namespace Transfer

open TfAws

/-- `transfer.HomeDirectoryTypePath` — the schema default for
`home_directory_type`. -/
def HomeDirectoryTypePath : String := "PATH"

/-- One `home_directory_mappings` block (`entry`, `target`, both required
strings); the wire-side `transfer.HomeDirectoryMapEntry` carries the same two
fields. -/
structure HomeDirectoryMapping where
  entry : String
  target : String
deriving DecidableEq, Repr

/-- The `posix_profile` block (`gid`, `uid` required ints, `secondary_gids`
an optional set of ints); the wire-side `transfer.PosixProfile` carries the
same fields. -/
structure PosixProfile where
  gid : Int
  uid : Int
  secondaryGids : List Int
deriving DecidableEq, Repr

/-- Modelled from the spec: `expandHomeDirectoryMappings` is not under `src/`.
The desired→wire mapping translates each `{entry, target}` block to the
corresponding wire entry; with both sides carrying the same two fields it is
the identity on the list. -/
def expandHomeDirectoryMappings (l : List HomeDirectoryMapping) :
    List HomeDirectoryMapping := l

/-- Modelled from the spec: `flattenHomeDirectoryMappings` is not under
`src/`.  The wire→desired inverse of `expandHomeDirectoryMappings`; a nil
wire slice flattens to the empty list (absent block stays absent). -/
def flattenHomeDirectoryMappings (w : Option (List HomeDirectoryMapping)) :
    List HomeDirectoryMapping := w.getD []

/-- Modelled from the spec: `expandUserPOSIXUser` is not under `src/`.  The
desired→wire mapping of the single `posix_profile` block (schema
`MaxItems: 1` list): the head of the list, as a present-or-absent wire
substructure. -/
def expandUserPOSIXUser (l : List PosixProfile) : Option PosixProfile := l.head?

/-- Modelled from the spec: `flattenUserPOSIXUser` is not under `src/`.  The
wire→desired inverse: an absent wire block flattens to the empty list, never
to a block of zero-valued fields. -/
def flattenUserPOSIXUser (w : Option PosixProfile) : List PosixProfile := w.toList

/-- Modelled from the spec: `structure.NormalizeJsonString` is an
out-of-scope host-framework helper (spec §1).  The schema's `StateFunc`
already stores `policy` normalized, so normalization is the identity on the
values this model handles. -/
def normalizeJsonString (s : String) : String := s

/-- Modelled from the spec: `verify.PolicyToSet` is an out-of-scope helper.
It keeps the configured policy form when it is equivalent to the wire
policy and otherwise adopts the wire form; with normalization the identity,
equivalence is equality. -/
def policyToSet (cfgPolicy wirePolicy : String) : String :=
  if cfgPolicy = wirePolicy then cfgPolicy else wirePolicy

/-- Modelled from the spec: `AccessCreateResourceID` is not under `src/`.
Spec §4.1: the identity is derived "by deterministically concatenating
natural-key fields with a fixed, documented separator (e.g. `/`)". -/
def AccessCreateResourceID (serverID externalID : String) : String :=
  serverID ++ "/" ++ externalID

/-- Modelled from the spec: `AccessParseResourceID` is not under `src/`.
Spec §4.1/§6: the reference format is `"<parent-scope>/<resource-name>"`,
exactly one separator; any other component count is a malformed-reference
error, not silently truncated. -/
def AccessParseResourceID (id : String) : Except String (String × String) :=
  match goSplit id '/' with
  | [serverID, externalID] => .ok (serverID, externalID)
  | _ => .error ("unexpected format for ID (" ++ id ++ "), expected SERVERID/EXTERNALID")

/-- The tracked state (`*schema.ResourceData`) of one Transfer Access.
Optional attributes use the SDK zero-value convention (`""` / `[]` = unset;
`d.GetOk` is false exactly there). -/
structure AccessState where
  id : String
  isNew : Bool
  externalId : String
  homeDirectory : String
  homeDirectoryMappings : List HomeDirectoryMapping
  homeDirectoryType : String
  policy : String
  posixProfile : List PosixProfile
  role : String
  serverId : String
deriving DecidableEq, Repr

/-- `transfer.CreateAccessInput` as built by `resourceAccessCreate`
(lines 131–163): `ExternalId` and `ServerId` always, every other field only
when `d.GetOk` holds. -/
structure CreateAccessInput where
  externalId : String
  serverId : String
  homeDirectory : Option String
  homeDirectoryMappings : Option (List HomeDirectoryMapping)
  homeDirectoryType : Option String
  policy : Option String
  posixProfile : Option PosixProfile
  role : Option String
deriving DecidableEq, Repr

/-- The request-construction part of `resourceAccessCreate` (lines 128–163).
(`policy` passes through `NormalizeJsonString`, whose invalid-JSON error
branch is unreachable for schema-validated policies and is modelled as the
identity.) -/
def resourceAccessCreateInput (d : AccessState) : CreateAccessInput :=
  { externalId := d.externalId
    serverId := d.serverId
    homeDirectory := if d.homeDirectory ≠ "" then some d.homeDirectory else none
    homeDirectoryMappings :=
      if d.homeDirectoryMappings ≠ [] then
        some (expandHomeDirectoryMappings d.homeDirectoryMappings)
      else none
    homeDirectoryType := if d.homeDirectoryType ≠ "" then some d.homeDirectoryType else none
    policy := if d.policy ≠ "" then some (normalizeJsonString d.policy) else none
    posixProfile := if d.posixProfile ≠ [] then expandUserPOSIXUser d.posixProfile else none
    role := if d.role ≠ "" then some d.role else none }

/-- `transfer.DescribedAccess`: the remote object returned on read.  (`Role`
is carried on the wire type but, per the source comment on lines 209–210,
"currently not returned via the API" — the Read handler never consumes it.) -/
structure DescribedAccess where
  externalId : Option String
  homeDirectory : Option String
  homeDirectoryMappings : Option (List HomeDirectoryMapping)
  homeDirectoryType : Option String
  policy : Option String
  posixProfile : Option PosixProfile
  role : Option String
deriving DecidableEq, Repr

/-- Modelled from the spec: `FindAccessByServerIDAndExternalID` is not under
`src/` (only its caller `resourceAccessRead` is).  Spec §4.1 Read:
"immediately after create, a not-found response is retryable for a bounded
duration (propagation window) rather than fatal — poll with backoff until
found or the window elapses".  `poll i` is the remote's answer to the `i`-th
describe call; `fuel` bounds the polls in the window, after which the final
attempt's response stands.  Returns the response and the number of calls
made. -/
def FindAccessByServerIDAndExternalID
    (poll : Nat → Except AwsError DescribedAccess) :
    Nat → Nat → Except AwsError DescribedAccess × Nat
  | i, 0 => (poll i, i + 1)
  | i, fuel + 1 =>
    match poll i with
    | .error .notFound => FindAccessByServerIDAndExternalID poll (i + 1) fuel
    | r => (r, i + 1)

/-- `resourceAccessRead` (lines 177–222).  Parse the tracked id (a parse
failure is a diagnostic before any remote call); find the access;
`!d.IsNewResource() && NotFound` removes the resource from state
(`d.SetId("")`) and returns success; any remaining error is a diagnostic; on
success refresh every returned attribute from the wire response — except
`role`, which the source leaves untouched ("Role is currently not returned
via the API") — set `policy` through `verify.PolicyToSet`, and set
`server_id` from the parsed id.  Returns (new tracked state, diagnostic if
any, number of remote describe calls made). -/
def resourceAccessRead (d : AccessState)
    (describe : String × String → Nat → Except AwsError DescribedAccess)
    (fuel : Nat) : AccessState × Option String × Nat :=
  match AccessParseResourceID d.id with
  | .error _ => (d, some "parsing Transfer Access ID", 0)
  | .ok (serverID, externalID) =>
    let r := FindAccessByServerIDAndExternalID (describe (serverID, externalID)) 0 fuel
    match r with
    | (.error e, n) =>
      if ¬ d.isNew ∧ e = .notFound then ({ d with id := "" }, none, n)
      else (d, some "reading Transfer Access", n)
    | (.ok access, n) =>
      ({ d with
          externalId := goStringValue access.externalId
          homeDirectory := goStringValue access.homeDirectory
          homeDirectoryMappings := flattenHomeDirectoryMappings access.homeDirectoryMappings
          homeDirectoryType := goStringValue access.homeDirectoryType
          posixProfile := flattenUserPOSIXUser access.posixProfile
          policy := policyToSet d.policy (goStringValue access.policy)
          serverId := serverID }, none, n)

/-- `resourceAccessCreate` (lines 124–175): assemble the id
(`AccessCreateResourceID(serverID, externalID)`) and the create request,
issue one create call; on failure return the diagnostic; on success set the
tracked id and chain into `resourceAccessRead` with `IsNewResource`
holding. -/
def resourceAccessCreate (d : AccessState)
    (createResp : CreateAccessInput → Option AwsError)
    (describe : String × String → Nat → Except AwsError DescribedAccess)
    (fuel : Nat) : AccessState × Option String × Nat :=
  let id := AccessCreateResourceID d.serverId d.externalId
  let input := resourceAccessCreateInput d
  match createResp input with
  | some _ => (d, some "creating Transfer Access", 0)
  | none => resourceAccessRead { d with id := id, isNew := true } describe fuel

/-- `transfer.UpdateAccessInput` as built by `resourceAccessUpdate`
(lines 234–266): `ExternalId` and `ServerId` from the parsed tracked id,
every other field only when `d.HasChange` holds. -/
structure UpdateAccessInput where
  externalId : String
  serverId : String
  homeDirectory : Option String
  homeDirectoryMappings : Option (List HomeDirectoryMapping)
  homeDirectoryType : Option String
  policy : Option String
  posixProfile : Option PosixProfile
  role : Option String
deriving DecidableEq, Repr

/-- `resourceAccessUpdate` (lines 224–276).  Parse the tracked id (a parse
failure is a diagnostic before any remote call); build one `UpdateAccess`
request whose optional fields are present exactly for the attributes with
`d.HasChange` (old-versus-new inequality), the new value being sent; issue
that one call; surface its error.  (On success the source then chains into
`resourceAccessRead`, which issues no mutating call.)  Returns the mutating
calls issued and the diagnostic if any. -/
def resourceAccessUpdate (dOld dNew : AccessState)
    (updateResp : UpdateAccessInput → Option AwsError) :
    List UpdateAccessInput × Option String :=
  match AccessParseResourceID dNew.id with
  | .error _ => ([], some "parsing Transfer Access ID")
  | .ok (serverID, externalID) =>
    let input : UpdateAccessInput :=
      { externalId := externalID
        serverId := serverID
        homeDirectory :=
          if dOld.homeDirectory ≠ dNew.homeDirectory then some dNew.homeDirectory else none
        homeDirectoryMappings :=
          if dOld.homeDirectoryMappings ≠ dNew.homeDirectoryMappings then
            some (expandHomeDirectoryMappings dNew.homeDirectoryMappings)
          else none
        homeDirectoryType :=
          if dOld.homeDirectoryType ≠ dNew.homeDirectoryType then
            some dNew.homeDirectoryType
          else none
        policy :=
          if dOld.policy ≠ dNew.policy then some (normalizeJsonString dNew.policy) else none
        posixProfile :=
          if dOld.posixProfile ≠ dNew.posixProfile then
            expandUserPOSIXUser dNew.posixProfile
          else none
        role := if dOld.role ≠ dNew.role then some dNew.role else none }
    match updateResp input with
    | some _ => ([input], some "updating Transfer Access")
    | none => ([input], none)

/-- `resourceAccessDelete` (lines 278–303): parse the tracked id, issue one
delete call keyed by `(serverID, externalID)`; a
`ResourceNotFoundException` is success (idempotent delete), any other error
is a diagnostic. -/
def resourceAccessDelete (d : AccessState)
    (deleteResp : String × String → Option AwsError) : Option String :=
  match AccessParseResourceID d.id with
  | .error _ => some "parsing Transfer Access ID"
  | .ok (serverID, externalID) =>
    match deleteResp (serverID, externalID) with
    | some .notFound => none
    | some (.other m) => some ("deleting Transfer Access: " ++ m)
    | none => none

end Transfer

namespace Transfer

/-- Remote-side echo model for the round-trip property: the provider API
stores exactly the fields of the create request and reports them back on
describe (omitted request fields stay omitted on the wire). -/
def describedOfCreate (i : CreateAccessInput) : DescribedAccess :=
  { externalId := some i.externalId
    homeDirectory := i.homeDirectory
    homeDirectoryMappings := i.homeDirectoryMappings
    homeDirectoryType := i.homeDirectoryType
    policy := i.policy
    posixProfile := i.posixProfile
    role := i.role }

end Transfer

namespace Schema

/-- The per-attribute schema flags the claims inspect
(`Required` / `Optional` / `Computed` / `ForceNew`). -/
structure AttrFlags where
  required : Bool := false
  optional : Bool := false
  computed : Bool := false
  forceNew : Bool := false
deriving DecidableEq, Repr

/-- Top-level attribute flags of `ResourceVirtualNode()`
(`virtual_node.go` lines 38–804): transcribed flag-for-flag from the schema
map (`tags` is `tftags.TagsSchema()`, an optional map; `tags_all` is
`tftags.TagsSchemaComputed()`, optional+computed). -/
def virtualNodeSchema : List (String × AttrFlags) :=
  [("name", { required := true, forceNew := true }),
   ("mesh_name", { required := true, forceNew := true }),
   ("mesh_owner", { optional := true, computed := true, forceNew := true }),
   ("spec", { required := true }),
   ("arn", { computed := true }),
   ("created_date", { computed := true }),
   ("last_updated_date", { computed := true }),
   ("resource_owner", { computed := true }),
   ("tags", { optional := true }),
   ("tags_all", { optional := true, computed := true })]

/-- Top-level attribute flags of `ResourceAccess()` (`access.go` lines
31–120), transcribed flag-for-flag: note `external_id` (lines 32–36) carries
`Required` only — no `ForceNew` — while `server_id` (lines 114–119) carries
both. -/
def transferAccessSchema : List (String × AttrFlags) :=
  [("external_id", { required := true }),
   ("home_directory", { optional := true }),
   ("home_directory_mappings", { optional := true }),
   ("home_directory_type", { optional := true }),
   ("policy", { optional := true }),
   ("posix_profile", { optional := true }),
   ("role", { optional := true }),
   ("server_id", { required := true, forceNew := true })]

/-- The `ForceNew` flag of attribute `n` in schema `s` (absent attributes
default to all-false flags). -/
def forceNewOf (s : List (String × AttrFlags)) (n : String) : Bool :=
  ((s.lookup n).getD {}).forceNew

/-- The attributes from which the Transfer Access identity is constructed:
`resourceAccessCreate` line 130 builds the id as
`AccessCreateResourceID(serverID, externalID)`. -/
def accessIdentityAttrs : List String := ["server_id", "external_id"]

/-- The natural-key attributes addressing a virtual node remotely (the
describe/update/delete requests and the two components of the import
reference `mesh-name/virtual-node-name`). -/
def virtualNodeIdentityAttrs : List String := ["mesh_name", "name"]

end Schema

open TfAws Waf Appmesh Transfer

/-- The result of `goSplitChar` is never empty. -/
theorem goSplitChar_ne_nil (sep : Char) (cs : List Char) : goSplitChar sep cs ≠ [] := by
  cases cs with
  | nil => simp [goSplitChar]
  | cons c rest =>
    simp only [goSplitChar]
    cases h : goSplitChar sep rest with
    | nil => simp
    | cons g gs =>
      by_cases hc : c = sep <;> simp [hc]

/-- Splitting a separator-free character list yields that list alone. -/
theorem goSplitChar_no_sep (sep : Char) (cs : List Char) (h : sep ∉ cs) :
    goSplitChar sep cs = [cs] := by
  induction cs with
  | nil => rfl
  | cons c rest ih =>
    simp only [List.mem_cons, not_or] at h
    simp only [goSplitChar, ih h.2]
    have : ¬ c = sep := fun hc => h.1 hc.symm
    simp [this]

/-- Splitting `a ++ sep :: b` where `a` is separator-free peels off `a` as the
first group. -/
theorem goSplitChar_append (sep : Char) (a b : List Char) (ha : sep ∉ a) :
    goSplitChar sep (a ++ sep :: b) = a :: goSplitChar sep b := by
  induction a with
  | nil =>
    simp only [List.nil_append, goSplitChar]
    cases h : goSplitChar sep b with
    | nil => exact absurd h (goSplitChar_ne_nil sep b)
    | cons g gs => simp
  | cons c rest ih =>
    simp only [List.mem_cons, not_or] at ha
    have hc : ¬ c = sep := fun hc => ha.1 hc.symm
    simp only [List.cons_append, goSplitChar, List.append_eq, ih ha.2, hc, if_false]

/-- Pagination: the pages handed to the callback are exactly the successfully
fetched pages, in order. -/
theorem listPagesLoop_trace_fetched (resp : Option String → Except String WafListOutput)
    (fn : WafListOutput → Bool → Bool) :
    ∀ (fuel : Nat) (marker : Option String),
      (listPagesLoop resp fn marker fuel).2.1.map Prod.fst
        = (listPagesLoop resp fn marker fuel).1.filterMap (fun c => c.2.toOption) := by
  intro fuel
  induction fuel with
  | zero => intro marker; simp [listPagesLoop]
  | succ n ih =>
    intro marker
    simp only [listPagesLoop]
    cases h : resp marker with
    | error e => simp [Except.toOption]
    | ok output =>
      dsimp only
      split_ifs with hc
      · simp [Except.toOption]
      · simp [Except.toOption, ih]

/-- Pagination: every callback invocation's `lastPage` argument is the
emptiness of that page's `NextMarker`. -/
theorem listPagesLoop_lastPage (resp : Option String → Except String WafListOutput)
    (fn : WafListOutput → Bool → Bool) :
    ∀ (fuel : Nat) (marker : Option String) (p : WafListOutput × Bool),
      p ∈ (listPagesLoop resp fn marker fuel).2.1 →
        p.2 = (goStringValue p.1.nextMarker == "") := by
  intro fuel
  induction fuel with
  | zero => intro marker p hp; simp [listPagesLoop] at hp
  | succ n ih =>
    intro marker p hp
    simp only [listPagesLoop] at hp
    cases h : resp marker with
    | error e => rw [h] at hp; simp at hp
    | ok output =>
      rw [h] at hp
      dsimp only at hp
      split_ifs at hp with hc
      · simp at hp
        subst hp; rfl
      · simp at hp
        rcases hp with hp | hp
        · subst hp; rfl
        · exact ih _ p hp

/-- Pagination: every callback invocation before the final one returned
`true` and was not a last page (the loop continued exactly there). -/
theorem listPagesLoop_continues (resp : Option String → Except String WafListOutput)
    (fn : WafListOutput → Bool → Bool) :
    ∀ (fuel : Nat) (marker : Option String) (p : WafListOutput × Bool),
      p ∈ (listPagesLoop resp fn marker fuel).2.1.dropLast →
        fn p.1 p.2 = true ∧ p.2 = false := by
  intro fuel
  induction fuel with
  | zero => intro marker p hp; simp [listPagesLoop] at hp
  | succ n ih =>
    intro marker p hp
    simp only [listPagesLoop] at hp
    cases h : resp marker with
    | error e => rw [h] at hp; simp at hp
    | ok output =>
      rw [h] at hp
      dsimp only at hp
      split_ifs at hp with hc
      · simp at hp
      · push_neg at hc
        cases htr : (listPagesLoop resp fn output.nextMarker n).2.1 with
        | nil => rw [htr] at hp; simp at hp
        | cons q qs =>
          rw [htr, List.dropLast_cons₂, List.mem_cons] at hp
          rcases hp with hp | hp
          · subst hp
            exact ⟨Bool.of_not_eq_false hc.1, Bool.eq_false_iff.mpr hc.2⟩
          · exact ih _ p (htr ▸ hp)

/-- Pagination: the loop returns `nil` exactly when the final callback
invocation stopped it (returned `false`) or saw the last page. -/
theorem listPagesLoop_ok_iff (resp : Option String → Except String WafListOutput)
    (fn : WafListOutput → Bool → Bool) :
    ∀ (fuel : Nat) (marker : Option String),
      (listPagesLoop resp fn marker fuel).2.2 = .ok ↔
        ∃ p, (listPagesLoop resp fn marker fuel).2.1.getLast? = some p ∧
          (fn p.1 p.2 = false ∨ p.2 = true) := by
  intro fuel
  induction fuel with
  | zero => intro marker; simp [listPagesLoop]
  | succ n ih =>
    intro marker
    simp only [listPagesLoop]
    cases h : resp marker with
    | error e => simp
    | ok output =>
      dsimp only
      split_ifs with hc
      · simp only [List.getLast?_singleton]
        constructor
        · intro _
          exact ⟨_, rfl, by simpa using hc⟩
        · intro _; trivial
      · push_neg at hc
        have ihn := ih output.nextMarker
        cases htr : (listPagesLoop resp fn output.nextMarker n).2.1 with
        | nil =>
          rw [htr] at ihn
          dsimp only
          constructor
          · intro hk
            exact absurd (ihn.mp hk) (by simp)
          · rintro ⟨p, hp, hstop⟩
            simp only [List.getLast?_singleton, Option.some.injEq] at hp
            subst hp
            rcases hstop with hs | hs
            · exact absurd (by simpa using hs) hc.1
            · exact absurd (by simpa using hs) hc.2
        | cons q qs =>
          rw [htr] at ihn
          dsimp only
          rw [ihn]
          simp [List.getLast?_cons_cons]

/-- Pagination: a failing remote call is returned immediately, with the
failing page never handed to the callback. -/
theorem listPagesLoop_error_first (resp : Option String → Except String WafListOutput)
    (fn : WafListOutput → Bool → Bool) (marker : Option String) (fuel : Nat) (e : String)
    (hf : 0 < fuel) (h : resp marker = .error e) :
    listPagesLoop resp fn marker fuel = ([(marker, .error e)], [], .remoteErr e) := by
  cases fuel with
  | zero => omega
  | succ n => simp [listPagesLoop, h]

/-- Pagination: a `remoteErr` outcome comes from the last remote call made. -/
theorem listPagesLoop_remoteErr_last (resp : Option String → Except String WafListOutput)
    (fn : WafListOutput → Bool → Bool) :
    ∀ (fuel : Nat) (marker : Option String) (e : String),
      (listPagesLoop resp fn marker fuel).2.2 = .remoteErr e →
        ∃ m, (listPagesLoop resp fn marker fuel).1.getLast? = some (m, .error e) := by
  intro fuel
  induction fuel with
  | zero => intro marker e hk; simp [listPagesLoop] at hk
  | succ n ih =>
    intro marker e hk
    simp only [listPagesLoop] at hk ⊢
    cases h : resp marker with
    | error e2 =>
      rw [h] at hk
      simp at hk
      simp [h, hk]
    | ok output =>
      rw [h] at hk
      dsimp only at hk ⊢
      split_ifs at hk ⊢ with hc
      dsimp only at hk ⊢
      obtain ⟨m, hm⟩ := ih output.nextMarker e hk
      refine ⟨m, ?_⟩
      cases hcalls : (listPagesLoop resp fn output.nextMarker n).1 with
      | nil => rw [hcalls] at hm; simp at hm
      | cons q qs =>
        rw [hcalls] at hm
        rw [List.getLast?_cons_cons]
        exact hm

/-- The `RetryContext` poll loop makes at most `fuel` describe calls. -/
theorem retryDescribeVirtualNode_bound (isNew : Bool)
    (poll : Nat → Except AwsError (Option VirtualNodeData)) :
    ∀ (fuel i : Nat), (retryDescribeVirtualNode isNew poll i fuel).2 ≤ i + fuel := by
  intro fuel
  induction fuel with
  | zero => intro i; simp [retryDescribeVirtualNode]
  | succ n ih =>
    intro i
    simp only [retryDescribeVirtualNode]
    cases h : poll i with
    | error e =>
      dsimp only
      split_ifs with hc
      · have := ih (i + 1)
        omega
      · dsimp only
        omega
    | ok out =>
      dsimp only
      omega

/-- A new-resource poll that answers not-found at every attempt exhausts the
whole window and times out after exactly `fuel` calls. -/
theorem retryDescribeVirtualNode_notFound
    (poll : Nat → Except AwsError (Option VirtualNodeData))
    (h : ∀ i, poll i = .error .notFound) :
    ∀ (fuel i : Nat),
      retryDescribeVirtualNode true poll i fuel = (.timedOut, i + fuel) := by
  intro fuel
  induction fuel with
  | zero => intro i; simp [retryDescribeVirtualNode]
  | succ n ih =>
    intro i
    simp only [retryDescribeVirtualNode, h i]
    split_ifs with hc
    · rw [ih (i + 1)]
      congr 1
      omega
    · simp at hc

/-- A new-resource poll that answers not-found `k` times and then succeeds
within the window stops at the success, after exactly `k + 1` calls. -/
theorem retryDescribeVirtualNode_found
    (poll : Nat → Except AwsError (Option VirtualNodeData))
    (out : Option VirtualNodeData) :
    ∀ (k fuel i : Nat), k < fuel →
      (∀ j, j < k → poll (i + j) = .error .notFound) →
      poll (i + k) = .ok out →
      retryDescribeVirtualNode true poll i fuel = (.ok out, i + k + 1) := by
  intro k
  induction k with
  | zero =>
    intro fuel i hk hnf hok
    cases fuel with
    | zero => omega
    | succ n =>
      rw [Nat.add_zero] at hok
      simp [retryDescribeVirtualNode, hok]
  | succ m ih =>
    intro fuel i hk hnf hok
    cases fuel with
    | zero => omega
    | succ n =>
      have h0 : poll i = .error .notFound := by
        have := hnf 0 (by omega)
        simpa using this
      simp only [retryDescribeVirtualNode, h0]
      split_ifs with hc
      · have harg : ∀ j, j < m → poll (i + 1 + j) = .error .notFound := by
          intro j hj
          have e1 : i + 1 + j = i + (j + 1) := by omega
          rw [e1]
          exact hnf (j + 1) (by omega)
        have hok2 : poll (i + 1 + m) = .ok out := by
          have e1 : i + 1 + m = i + (m + 1) := by omega
          rw [e1]; exact hok
        rw [ih n (i + 1) (by omega) harg hok2]
        congr 1
        omega
      · simp at hc

/-- A non-retryable first answer (any error on an existing resource, a
non-not-found error, or a success) ends the retry loop after one call. -/
theorem retryDescribeVirtualNode_first (isNew : Bool)
    (poll : Nat → Except AwsError (Option VirtualNodeData)) (fuel : Nat)
    (hf : 0 < fuel) :
    (∀ e, poll 0 = .error e → ¬ (isNew = true ∧ e = .notFound) →
      retryDescribeVirtualNode isNew poll 0 fuel = (.awsErr e, 1)) ∧
    (∀ out, poll 0 = .ok out →
      retryDescribeVirtualNode isNew poll 0 fuel = (.ok out, 1)) := by
  cases fuel with
  | zero => omega
  | succ n =>
    constructor
    · intro e h hne
      simp only [retryDescribeVirtualNode, h]
      rw [if_neg hne]
    · intro out h
      simp [retryDescribeVirtualNode, h]

/-- The spec-modelled finder makes at most `fuel + 1` describe calls. -/
theorem findAccess_bound (poll : Nat → Except AwsError DescribedAccess) :
    ∀ (fuel i : Nat), (FindAccessByServerIDAndExternalID poll i fuel).2 ≤ i + fuel + 1 := by
  intro fuel
  induction fuel with
  | zero => intro i; simp [FindAccessByServerIDAndExternalID]
  | succ n ih =>
    intro i
    simp only [FindAccessByServerIDAndExternalID]
    cases h : poll i with
    | error e =>
      cases e with
      | notFound =>
        dsimp only
        have := ih (i + 1)
        omega
      | other m =>
        dsimp only
        omega
    | ok out =>
      dsimp only
      omega

/-- A finder whose poll answers not-found at every attempt exhausts the whole
window and reports not-found after exactly `fuel + 1` calls. -/
theorem findAccess_notFound (poll : Nat → Except AwsError DescribedAccess)
    (h : ∀ i, poll i = .error .notFound) :
    ∀ (fuel i : Nat),
      FindAccessByServerIDAndExternalID poll i fuel = (.error .notFound, i + fuel + 1) := by
  intro fuel
  induction fuel with
  | zero => intro i; simp [FindAccessByServerIDAndExternalID, h i]
  | succ n ih =>
    intro i
    simp only [FindAccessByServerIDAndExternalID, h i]
    rw [ih (i + 1)]
    congr 1
    omega

/-- A finder whose poll answers not-found `k` times and then succeeds within
the window stops at the success, after exactly `k + 1` calls. -/
theorem findAccess_found (poll : Nat → Except AwsError DescribedAccess)
    (access : DescribedAccess) :
    ∀ (k fuel i : Nat), k ≤ fuel →
      (∀ j, j < k → poll (i + j) = .error .notFound) →
      poll (i + k) = .ok access →
      FindAccessByServerIDAndExternalID poll i fuel = (.ok access, i + k + 1) := by
  intro k
  induction k with
  | zero =>
    intro fuel i hk hnf hok
    rw [Nat.add_zero] at hok
    cases fuel with
    | zero => simp [FindAccessByServerIDAndExternalID, hok]
    | succ n => simp [FindAccessByServerIDAndExternalID, hok]
  | succ m ih =>
    intro fuel i hk hnf hok
    cases fuel with
    | zero => omega
    | succ n =>
      have h0 : poll i = .error .notFound := by
        have := hnf 0 (by omega)
        simpa using this
      simp only [FindAccessByServerIDAndExternalID, h0]
      have harg : ∀ j, j < m → poll (i + 1 + j) = .error .notFound := by
        intro j hj
        have e1 : i + 1 + j = i + (j + 1) := by omega
        rw [e1]
        exact hnf (j + 1) (by omega)
      have hok2 : poll (i + 1 + m) = .ok access := by
        have e1 : i + 1 + m = i + (m + 1) := by omega
        rw [e1]; exact hok
      rw [ih n (i + 1) (by omega) harg hok2]
      congr 1
      omega

/-- C1: for a resource that already existed in tracked state (`IsNewResource`
false), a Read observing a not-found response — or a found object whose
status is `DELETED` — removes the resource from tracked state (identity set
to `""`) and returns success without a diagnostic; for the Virtual Node on
both shapes, and for the Transfer Access on not-found. -/
theorem claim_C1_drift_read_reports_absence :
    (∀ (d : VNodeState)
       (describe : DescribeVirtualNodeInput → Nat → Except AwsError (Option VirtualNodeData))
       (listTags : String → Except AwsError (List (String × String))) (fuel : Nat),
      d.isNew = false →
      describe (describeVirtualNodeInput d) 0 = .error .notFound →
      resourceVirtualNodeRead d describe listTags fuel = ({ d with id := "" }, none, 1)) ∧
    (∀ (d : VNodeState)
       (describe : DescribeVirtualNodeInput → Nat → Except AwsError (Option VirtualNodeData))
       (listTags : String → Except AwsError (List (String × String)))
       (fuel : Nat) (vn : VirtualNodeData),
      d.isNew = false →
      describe (describeVirtualNodeInput d) 0 = .ok (some vn) →
      goStringValue vn.status.status = VirtualNodeStatusCodeDeleted →
      resourceVirtualNodeRead d describe listTags fuel = ({ d with id := "" }, none, 1)) ∧
    (∀ (d : AccessState) (describe : String × String → Nat → Except AwsError DescribedAccess)
       (fuel : Nat) (s e : String),
      d.isNew = false →
      AccessParseResourceID d.id = .ok (s, e) →
      (∀ i, describe (s, e) i = .error .notFound) →
      resourceAccessRead d describe fuel = ({ d with id := "" }, none, fuel + 1)) := by
  refine ⟨?_, ?_, ?_⟩
  · intro d describe listTags fuel hnew h0
    cases fuel with
    | zero =>
      simp only [resourceVirtualNodeRead, retryDescribeVirtualNode]
      rw [h0]
      simp [hnew]
    | succ n =>
      have h1 := (retryDescribeVirtualNode_first d.isNew
        (describe (describeVirtualNodeInput d)) (n + 1) (by omega)).1
        AwsError.notFound h0 (by simp [hnew])
      simp only [resourceVirtualNodeRead]
      rw [h1]
      simp [hnew]
  · intro d describe listTags fuel vn hnew h0 hdel
    cases fuel with
    | zero =>
      simp only [resourceVirtualNodeRead, retryDescribeVirtualNode]
      rw [h0]
      simp [hnew, hdel]
    | succ n =>
      have h1 := (retryDescribeVirtualNode_first d.isNew
        (describe (describeVirtualNodeInput d)) (n + 1) (by omega)).2 (some vn) h0
      simp only [resourceVirtualNodeRead]
      rw [h1]
      simp [hnew, hdel]
  · intro d describe fuel s e hnew hparse hnf
    have h1 := findAccess_notFound (describe (s, e)) hnf fuel 0
    simp only [resourceAccessRead, hparse]
    rw [h1]
    simp [hnew]

/-- Witness for C1 at concrete inputs: an existing virtual node whose remote
answers not-found is dropped from state with success after one call, and an
existing access whose remote answers not-found throughout a 2-poll window is
dropped from state with success. -/
theorem claim_C1_drift_read_reports_absence_witness :
    resourceVirtualNodeRead
      { id := "uid-1", isNew := false, name := "n1", meshName := "m1", meshOwner := "",
        spec := ["s"], arn := "a", createdDate := "", lastUpdatedDate := "",
        resourceOwner := "", tags := [], tagsAll := [] }
      (fun _ _ => .error .notFound) (fun _ => .ok []) 3
      = ({ id := "", isNew := false, name := "n1", meshName := "m1", meshOwner := "",
           spec := ["s"], arn := "a", createdDate := "", lastUpdatedDate := "",
           resourceOwner := "", tags := [], tagsAll := [] }, none, 1)
    ∧ resourceAccessRead
      { id := "s-1/e-1", isNew := false, externalId := "e-1", homeDirectory := "",
        homeDirectoryMappings := [], homeDirectoryType := "PATH", policy := "",
        posixProfile := [], role := "", serverId := "s-1" }
      (fun _ _ => .error .notFound) 2
      = ({ id := "", isNew := false, externalId := "e-1", homeDirectory := "",
           homeDirectoryMappings := [], homeDirectoryType := "PATH", policy := "",
           posixProfile := [], role := "", serverId := "s-1" }, none, 3) :=
  ⟨claim_C1_drift_read_reports_absence.1 _ _ _ 3 rfl rfl,
   claim_C1_drift_read_reports_absence.2.2 _ _ 2 "s-1" "e-1" rfl rfl
     (fun _ => rfl)⟩

/-- C2: for both resource variants a `NotFound` answer to the delete call is
success (no diagnostic), any other error is surfaced, and — against the
remote delete model — deleting the same identity twice in succession never
fails on the second call. -/
theorem claim_C2_idempotent_delete :
    (∀ (d : VNodeState), resourceVirtualNodeDelete d (fun _ => some .notFound) = none) ∧
    (∀ (d : VNodeState), resourceVirtualNodeDelete d (fun _ => none) = none) ∧
    (∀ (d : VNodeState) (msg : String),
      resourceVirtualNodeDelete d (fun _ => some (.other msg))
        = some ("deleting App Mesh virtual node: " ++ msg)) ∧
    (∀ (d : VNodeState) (present : Bool),
      resourceVirtualNodeDelete d (fun _ => (remoteDeleteModel present).1) = none ∧
      resourceVirtualNodeDelete d
        (fun _ => (remoteDeleteModel (remoteDeleteModel present).2).1) = none) ∧
    (∀ (d : AccessState) (s e : String), AccessParseResourceID d.id = .ok (s, e) →
      resourceAccessDelete d (fun _ => some .notFound) = none ∧
      resourceAccessDelete d (fun _ => none) = none ∧
      (∀ msg, resourceAccessDelete d (fun _ => some (.other msg))
        = some ("deleting Transfer Access: " ++ msg)) ∧
      (∀ present : Bool,
        resourceAccessDelete d (fun _ => (remoteDeleteModel present).1) = none ∧
        resourceAccessDelete d
          (fun _ => (remoteDeleteModel (remoteDeleteModel present).2).1) = none)) := by
  refine ⟨fun d => rfl, fun d => rfl, fun d msg => rfl, ?_, ?_⟩
  · intro d present
    cases present <;> simp [resourceVirtualNodeDelete, remoteDeleteModel]
  · intro d s e hparse
    refine ⟨?_, ?_, ?_, ?_⟩
    · simp [resourceAccessDelete, hparse]
    · simp [resourceAccessDelete, hparse]
    · intro msg
      simp [resourceAccessDelete, hparse]
    · intro present
      cases present <;> simp [resourceAccessDelete, hparse, remoteDeleteModel]

/-- Witness for C2 at concrete inputs: deleting the same virtual node and the
same access twice against the remote delete model succeeds both times, and a
non-not-found error is surfaced. -/
theorem claim_C2_idempotent_delete_witness :
    (resourceVirtualNodeDelete
      { id := "uid-1", isNew := false, name := "n1", meshName := "m1", meshOwner := "",
        spec := ["s"], arn := "a", createdDate := "", lastUpdatedDate := "",
        resourceOwner := "", tags := [], tagsAll := [] }
      (fun _ => (remoteDeleteModel true).1) = none ∧
     resourceVirtualNodeDelete
      { id := "uid-1", isNew := false, name := "n1", meshName := "m1", meshOwner := "",
        spec := ["s"], arn := "a", createdDate := "", lastUpdatedDate := "",
        resourceOwner := "", tags := [], tagsAll := [] }
      (fun _ => (remoteDeleteModel (remoteDeleteModel true).2).1) = none) ∧
    (resourceAccessDelete
      { id := "s-1/e-1", isNew := false, externalId := "e-1", homeDirectory := "",
        homeDirectoryMappings := [], homeDirectoryType := "PATH", policy := "",
        posixProfile := [], role := "", serverId := "s-1" }
      (fun _ => some (.other "boom")) = some ("deleting Transfer Access: boom")) :=
  ⟨claim_C2_idempotent_delete.2.2.2.1 _ true,
   (claim_C2_idempotent_delete.2.2.2.2
      { id := "s-1/e-1", isNew := false, externalId := "e-1", homeDirectory := "",
        homeDirectoryMappings := [], homeDirectoryType := "PATH", policy := "",
        posixProfile := [], role := "", serverId := "s-1" }
      "s-1" "e-1" rfl).2.2.1 "boom"⟩

/-- C3: a Read on a newly created virtual node (`IsNewResource` true) that
finds the object with status `DELETED` returns a fatal diagnostic after
exactly one describe call — no retry, no state removal, no silent
completion. -/
theorem claim_C3_deleted_after_create_fatal :
    ∀ (d : VNodeState)
      (describe : DescribeVirtualNodeInput → Nat → Except AwsError (Option VirtualNodeData))
      (listTags : String → Except AwsError (List (String × String)))
      (fuel : Nat) (vn : VirtualNodeData),
      d.isNew = true →
      describe (describeVirtualNodeInput d) 0 = .ok (some vn) →
      goStringValue vn.status.status = VirtualNodeStatusCodeDeleted →
      resourceVirtualNodeRead d describe listTags fuel
        = (d, some "reading App Mesh Virtual Node: DELETED after creation", 1) := by
  intro d describe listTags fuel vn hnew h0 hdel
  cases fuel with
  | zero =>
    simp only [resourceVirtualNodeRead, retryDescribeVirtualNode]
    rw [h0]
    simp [hnew, hdel]
  | succ n =>
    have h1 := (retryDescribeVirtualNode_first d.isNew
      (describe (describeVirtualNodeInput d)) (n + 1) (by omega)).2 (some vn) h0
    simp only [resourceVirtualNodeRead]
    rw [h1]
    simp [hnew, hdel]

/-- Witness for C3 at a concrete input: a freshly created virtual node whose
first describe already reports status `DELETED` yields the fatal diagnostic
after one call. -/
theorem claim_C3_deleted_after_create_fatal_witness :
    resourceVirtualNodeRead
      { id := "uid-1", isNew := true, name := "n1", meshName := "m1", meshOwner := "",
        spec := ["s"], arn := "", createdDate := "", lastUpdatedDate := "",
        resourceOwner := "", tags := [], tagsAll := [] }
      (fun _ _ => .ok (some
        { meshName := some "m1", virtualNodeName := some "n1", spec := some "s",
          metadata := { arn := some "a", uid := some "uid-1", meshOwner := some "o",
                        resourceOwner := some "r", createdAt := 0, lastUpdatedAt := 0 },
          status := { status := some "DELETED" } }))
      (fun _ => .ok []) 4
      = ({ id := "uid-1", isNew := true, name := "n1", meshName := "m1", meshOwner := "",
           spec := ["s"], arn := "", createdDate := "", lastUpdatedDate := "",
           resourceOwner := "", tags := [], tagsAll := [] },
         some "reading App Mesh Virtual Node: DELETED after creation", 1) :=
  claim_C3_deleted_after_create_fatal _ _ _ 4 _ rfl rfl rfl

/-- C4: a Read on a newly created resource polls through not-found answers
for the bounded propagation window — succeeding as soon as the object
appears, failing with a surfaced error once the window elapses — and no
run of either Read ever makes more than `fuel + 1` remote calls (no
unbounded retry); a non-not-found error is never retried at all. -/
theorem claim_C4_bounded_propagation_window :
    (∀ (d : VNodeState)
       (describe : DescribeVirtualNodeInput → Nat → Except AwsError (Option VirtualNodeData))
       (listTags : String → Except AwsError (List (String × String)))
       (fuel k : Nat) (vn : VirtualNodeData) (tags : List (String × String)),
      d.isNew = true → k < fuel →
      (∀ j, j < k → describe (describeVirtualNodeInput d) j = .error .notFound) →
      describe (describeVirtualNodeInput d) k = .ok (some vn) →
      goStringValue vn.status.status ≠ VirtualNodeStatusCodeDeleted →
      listTags (goStringValue vn.metadata.arn) = .ok tags →
      (resourceVirtualNodeRead d describe listTags fuel).2 = (none, k + 1)) ∧
    (∀ (d : VNodeState)
       (describe : DescribeVirtualNodeInput → Nat → Except AwsError (Option VirtualNodeData))
       (listTags : String → Except AwsError (List (String × String))) (fuel : Nat),
      d.isNew = true →
      (∀ i, describe (describeVirtualNodeInput d) i = .error .notFound) →
      resourceVirtualNodeRead d describe listTags fuel
        = (d, some "reading App Mesh Virtual Node", fuel + 1)) ∧
    (∀ (d : VNodeState)
       (describe : DescribeVirtualNodeInput → Nat → Except AwsError (Option VirtualNodeData))
       (listTags : String → Except AwsError (List (String × String))) (fuel : Nat),
      (resourceVirtualNodeRead d describe listTags fuel).2.2 ≤ fuel + 1) ∧
    (∀ (d : VNodeState)
       (describe : DescribeVirtualNodeInput → Nat → Except AwsError (Option VirtualNodeData))
       (listTags : String → Except AwsError (List (String × String))) (fuel : Nat)
       (msg : String),
      describe (describeVirtualNodeInput d) 0 = .error (.other msg) →
      (resourceVirtualNodeRead d describe listTags fuel).2.2 = 1) ∧
    (∀ (d : AccessState) (describe : String × String → Nat → Except AwsError DescribedAccess)
       (fuel : Nat) (s e : String),
      d.isNew = true →
      AccessParseResourceID d.id = .ok (s, e) →
      (∀ i, describe (s, e) i = .error .notFound) →
      resourceAccessRead d describe fuel = (d, some "reading Transfer Access", fuel + 1)) ∧
    (∀ (d : AccessState) (describe : String × String → Nat → Except AwsError DescribedAccess)
       (fuel k : Nat) (s e : String) (access : DescribedAccess),
      AccessParseResourceID d.id = .ok (s, e) → k ≤ fuel →
      (∀ j, j < k → describe (s, e) j = .error .notFound) →
      describe (s, e) k = .ok access →
      (resourceAccessRead d describe fuel).2 = (none, k + 1)) ∧
    (∀ (d : AccessState) (describe : String × String → Nat → Except AwsError DescribedAccess)
       (fuel : Nat),
      (resourceAccessRead d describe fuel).2.2 ≤ fuel + 1) := by
  refine ⟨?_, ?_, ?_, ?_, ?_, ?_, ?_⟩
  · intro d describe listTags fuel k vn tags hnew hk hnf hok hstat htags
    have hnf0 : ∀ j, j < k →
        describe (describeVirtualNodeInput d) (0 + j) = .error .notFound := by
      intro j hj; rw [Nat.zero_add]; exact hnf j hj
    have hok0 : describe (describeVirtualNodeInput d) (0 + k) = .ok (some vn) := by
      rw [Nat.zero_add]; exact hok
    have h1 := retryDescribeVirtualNode_found
      (describe (describeVirtualNodeInput d)) (some vn) k fuel 0 hk hnf0 hok0
    simp only [resourceVirtualNodeRead, hnew]
    rw [h1]
    simp [hstat, htags]
  · intro d describe listTags fuel hnew hnf
    have h1 := retryDescribeVirtualNode_notFound
      (describe (describeVirtualNodeInput d)) hnf fuel 0
    simp only [resourceVirtualNodeRead, hnew]
    rw [h1]
    simp [hnf]
  · intro d describe listTags fuel
    have hb := retryDescribeVirtualNode_bound d.isNew
      (describe (describeVirtualNodeInput d)) fuel 0
    simp only [resourceVirtualNodeRead]
    rcases hr : retryDescribeVirtualNode d.isNew
      (describe (describeVirtualNodeInput d)) 0 fuel with ⟨res, n⟩
    rw [hr] at hb
    simp only [Nat.zero_add] at hb
    cases res with
    | timedOut =>
      dsimp only
      cases hpoll : describe (describeVirtualNodeInput d) n with
      | error e =>
        dsimp only
        split_ifs <;> simp <;> omega
      | ok out =>
        cases out with
        | none => simp; omega
        | some vn =>
          dsimp only
          split_ifs
          · simp; omega
          · simp; omega
          · cases listTags (goStringValue vn.metadata.arn) <;> simp <;> omega
    | awsErr e =>
      dsimp only
      split_ifs <;> simp <;> omega
    | ok out =>
      cases out with
      | none => simp; omega
      | some vn =>
        dsimp only
        split_ifs
        · simp; omega
        · simp; omega
        · cases listTags (goStringValue vn.metadata.arn) <;> simp <;> omega
  · intro d describe listTags fuel msg h0
    cases fuel with
    | zero =>
      simp only [resourceVirtualNodeRead, retryDescribeVirtualNode]
      rw [h0]
      simp
    | succ n =>
      have h1 := (retryDescribeVirtualNode_first d.isNew
        (describe (describeVirtualNodeInput d)) (n + 1) (by omega)).1
        (.other msg) h0 (by simp)
      simp only [resourceVirtualNodeRead]
      rw [h1]
      simp
  · intro d describe fuel s e hnew hparse hnf
    have h1 := findAccess_notFound (describe (s, e)) hnf fuel 0
    simp only [resourceAccessRead, hparse]
    rw [h1]
    simp [hnew]
  · intro d describe fuel k s e access hparse hk hnf hok
    have hnf0 : ∀ j, j < k → describe (s, e) (0 + j) = .error .notFound := by
      intro j hj; rw [Nat.zero_add]; exact hnf j hj
    have hok0 : describe (s, e) (0 + k) = .ok access := by
      rw [Nat.zero_add]; exact hok
    have h1 := findAccess_found (describe (s, e)) access k fuel 0 hk hnf0 hok0
    simp only [resourceAccessRead, hparse]
    rw [h1]
    simp
  · intro d describe fuel
    simp only [resourceAccessRead]
    cases hparse : AccessParseResourceID d.id with
    | error e2 => simp
    | ok se =>
      obtain ⟨s, e⟩ := se
      dsimp only
      have hb := findAccess_bound (describe (s, e)) fuel 0
      rcases hr : FindAccessByServerIDAndExternalID (describe (s, e)) 0 fuel with ⟨res, n⟩
      rw [hr] at hb
      simp only [Nat.zero_add] at hb
      cases res with
      | error e2 =>
        dsimp only
        split_ifs <;> simp <;> omega
      | ok access =>
        dsimp only
        simp
        omega

/-- Witness for C4 at concrete inputs: a freshly created virtual node whose
remote never appears fails with a surfaced error after the 2-poll window plus
the final attempt (3 calls), and a freshly created access that appears on the
third poll succeeds after exactly 3 calls. -/
theorem claim_C4_bounded_propagation_window_witness :
    resourceVirtualNodeRead
      { id := "uid-1", isNew := true, name := "n1", meshName := "m1", meshOwner := "",
        spec := ["s"], arn := "", createdDate := "", lastUpdatedDate := "",
        resourceOwner := "", tags := [], tagsAll := [] }
      (fun _ _ => .error .notFound) (fun _ => .ok []) 2
      = ({ id := "uid-1", isNew := true, name := "n1", meshName := "m1", meshOwner := "",
           spec := ["s"], arn := "", createdDate := "", lastUpdatedDate := "",
           resourceOwner := "", tags := [], tagsAll := [] },
         some "reading App Mesh Virtual Node", 3) ∧
    (resourceAccessRead
      { id := "s-1/e-1", isNew := true, externalId := "e-1", homeDirectory := "",
        homeDirectoryMappings := [], homeDirectoryType := "PATH", policy := "",
        posixProfile := [], role := "", serverId := "s-1" }
      (fun _ i => if i < 2 then .error .notFound
        else .ok { externalId := some "e-1", homeDirectory := none,
                   homeDirectoryMappings := none, homeDirectoryType := some "PATH",
                   policy := none, posixProfile := none, role := none }) 4).2
      = (none, 3) :=
  ⟨claim_C4_bounded_propagation_window.2.1 _ _ _ 2 rfl (fun _ => rfl),
   claim_C4_bounded_propagation_window.2.2.2.2.2.1
     { id := "s-1/e-1", isNew := true, externalId := "e-1", homeDirectory := "",
       homeDirectoryMappings := [], homeDirectoryType := "PATH", policy := "",
       posixProfile := [], role := "", serverId := "s-1" }
     (fun _ i => if i < 2 then .error .notFound
       else .ok { externalId := some "e-1", homeDirectory := none,
                  homeDirectoryMappings := none, homeDirectoryType := some "PATH",
                  policy := none, posixProfile := none, role := none })
     4 2 "s-1" "e-1"
     { externalId := some "e-1", homeDirectory := none,
       homeDirectoryMappings := none, homeDirectoryType := some "PATH",
       policy := none, posixProfile := none, role := none }
     rfl (by omega) (fun j hj => if_pos hj) (if_neg (by omega))⟩

/-- C5: Update issues exactly one remote mutating call for the one changed
attribute group and none for unchanged groups: for the virtual node a
spec-only change issues only `UpdateVirtualNode`, a tags-only change issues
only `UpdateTags`, and no change issues nothing; for the access every
one-group change issues the single `UpdateAccess` call carrying exactly the
changed group (all unchanged groups absent from the request). -/
theorem claim_C5_update_minimality :
    (∀ (dOld dNew : VNodeState) (updateResp : UpdateVirtualNodeInput → Option AwsError)
       (updateTagsResp : Option AwsError),
      dOld.spec ≠ dNew.spec → dOld.tagsAll = dNew.tagsAll →
      (resourceVirtualNodeUpdate dOld dNew updateResp updateTagsResp).1
        = [VNodeMutCall.updateVirtualNode
            { meshName := dNew.meshName, virtualNodeName := dNew.name,
              spec := expandVirtualNodeSpec dNew.spec,
              meshOwner := if dNew.meshOwner ≠ "" then some dNew.meshOwner else none }]) ∧
    (∀ (dOld dNew : VNodeState) (updateResp : UpdateVirtualNodeInput → Option AwsError)
       (updateTagsResp : Option AwsError),
      dOld.spec = dNew.spec → dOld.tagsAll ≠ dNew.tagsAll →
      (resourceVirtualNodeUpdate dOld dNew updateResp updateTagsResp).1
        = [VNodeMutCall.updateTags dNew.arn dOld.tagsAll dNew.tagsAll]) ∧
    (∀ (dOld dNew : VNodeState) (updateResp : UpdateVirtualNodeInput → Option AwsError)
       (updateTagsResp : Option AwsError),
      dOld.spec = dNew.spec → dOld.tagsAll = dNew.tagsAll →
      (resourceVirtualNodeUpdate dOld dNew updateResp updateTagsResp).1 = []) ∧
    (∀ (dOld dNew : AccessState) (resp : UpdateAccessInput → Option AwsError) (s e : String),
      AccessParseResourceID dNew.id = .ok (s, e) →
      dOld.homeDirectory ≠ dNew.homeDirectory →
      dOld.homeDirectoryMappings = dNew.homeDirectoryMappings →
      dOld.homeDirectoryType = dNew.homeDirectoryType →
      dOld.policy = dNew.policy →
      dOld.posixProfile = dNew.posixProfile →
      dOld.role = dNew.role →
      (resourceAccessUpdate dOld dNew resp).1
        = [{ externalId := e, serverId := s,
             homeDirectory := some dNew.homeDirectory,
             homeDirectoryMappings := none, homeDirectoryType := none,
             policy := none, posixProfile := none, role := none }]) ∧
    (∀ (dOld dNew : AccessState) (resp : UpdateAccessInput → Option AwsError) (s e : String),
      AccessParseResourceID dNew.id = .ok (s, e) →
      dOld.homeDirectory = dNew.homeDirectory →
      dOld.homeDirectoryMappings ≠ dNew.homeDirectoryMappings →
      dOld.homeDirectoryType = dNew.homeDirectoryType →
      dOld.policy = dNew.policy →
      dOld.posixProfile = dNew.posixProfile →
      dOld.role = dNew.role →
      (resourceAccessUpdate dOld dNew resp).1
        = [{ externalId := e, serverId := s,
             homeDirectory := none,
             homeDirectoryMappings :=
               some (expandHomeDirectoryMappings dNew.homeDirectoryMappings),
             homeDirectoryType := none,
             policy := none, posixProfile := none, role := none }]) ∧
    (∀ (dOld dNew : AccessState) (resp : UpdateAccessInput → Option AwsError) (s e : String),
      AccessParseResourceID dNew.id = .ok (s, e) →
      dOld.homeDirectory = dNew.homeDirectory →
      dOld.homeDirectoryMappings = dNew.homeDirectoryMappings →
      dOld.homeDirectoryType ≠ dNew.homeDirectoryType →
      dOld.policy = dNew.policy →
      dOld.posixProfile = dNew.posixProfile →
      dOld.role = dNew.role →
      (resourceAccessUpdate dOld dNew resp).1
        = [{ externalId := e, serverId := s,
             homeDirectory := none, homeDirectoryMappings := none,
             homeDirectoryType := some dNew.homeDirectoryType,
             policy := none, posixProfile := none, role := none }]) ∧
    (∀ (dOld dNew : AccessState) (resp : UpdateAccessInput → Option AwsError) (s e : String),
      AccessParseResourceID dNew.id = .ok (s, e) →
      dOld.homeDirectory = dNew.homeDirectory →
      dOld.homeDirectoryMappings = dNew.homeDirectoryMappings →
      dOld.homeDirectoryType = dNew.homeDirectoryType →
      dOld.policy ≠ dNew.policy →
      dOld.posixProfile = dNew.posixProfile →
      dOld.role = dNew.role →
      (resourceAccessUpdate dOld dNew resp).1
        = [{ externalId := e, serverId := s,
             homeDirectory := none, homeDirectoryMappings := none,
             homeDirectoryType := none,
             policy := some (normalizeJsonString dNew.policy),
             posixProfile := none, role := none }]) ∧
    (∀ (dOld dNew : AccessState) (resp : UpdateAccessInput → Option AwsError) (s e : String),
      AccessParseResourceID dNew.id = .ok (s, e) →
      dOld.homeDirectory = dNew.homeDirectory →
      dOld.homeDirectoryMappings = dNew.homeDirectoryMappings →
      dOld.homeDirectoryType = dNew.homeDirectoryType →
      dOld.policy = dNew.policy →
      dOld.posixProfile ≠ dNew.posixProfile →
      dOld.role = dNew.role →
      (resourceAccessUpdate dOld dNew resp).1
        = [{ externalId := e, serverId := s,
             homeDirectory := none, homeDirectoryMappings := none,
             homeDirectoryType := none, policy := none,
             posixProfile := expandUserPOSIXUser dNew.posixProfile,
             role := none }]) ∧
    (∀ (dOld dNew : AccessState) (resp : UpdateAccessInput → Option AwsError) (s e : String),
      AccessParseResourceID dNew.id = .ok (s, e) →
      dOld.homeDirectory = dNew.homeDirectory →
      dOld.homeDirectoryMappings = dNew.homeDirectoryMappings →
      dOld.homeDirectoryType = dNew.homeDirectoryType →
      dOld.policy = dNew.policy →
      dOld.posixProfile = dNew.posixProfile →
      dOld.role ≠ dNew.role →
      (resourceAccessUpdate dOld dNew resp).1
        = [{ externalId := e, serverId := s,
             homeDirectory := none, homeDirectoryMappings := none,
             homeDirectoryType := none, policy := none, posixProfile := none,
             role := some dNew.role }]) := by
  refine ⟨?_, ?_, ?_, ?_, ?_, ?_, ?_, ?_, ?_⟩
  · intro dOld dNew updateResp updateTagsResp hspec htags
    simp only [resourceVirtualNodeUpdate]
    rw [if_pos hspec]
    cases updateResp
        (⟨dNew.meshName, dNew.name, expandVirtualNodeSpec dNew.spec,
          if dNew.meshOwner ≠ "" then some dNew.meshOwner else none⟩ :
          UpdateVirtualNodeInput) <;>
      simp [htags]
  · intro dOld dNew updateResp updateTagsResp hspec htags
    simp only [resourceVirtualNodeUpdate]
    rw [if_neg (by simp [hspec])]
    dsimp only
    rw [if_pos htags]
    cases updateTagsResp <;> simp
  · intro dOld dNew updateResp updateTagsResp hspec htags
    simp only [resourceVirtualNodeUpdate]
    rw [if_neg (by simp [hspec])]
    dsimp only
    rw [if_neg (by simp [htags])]
  · intro dOld dNew resp s e hparse h1 h2 h3 h4 h5 h6
    simp only [resourceAccessUpdate, hparse]
    split <;> simp [h1, h2, h3, h4, h5, h6]
  · intro dOld dNew resp s e hparse h1 h2 h3 h4 h5 h6
    simp only [resourceAccessUpdate, hparse]
    split <;> simp [h1, h2, h3, h4, h5, h6]
  · intro dOld dNew resp s e hparse h1 h2 h3 h4 h5 h6
    simp only [resourceAccessUpdate, hparse]
    split <;> simp [h1, h2, h3, h4, h5, h6]
  · intro dOld dNew resp s e hparse h1 h2 h3 h4 h5 h6
    simp only [resourceAccessUpdate, hparse]
    split <;> simp [h1, h2, h3, h4, h5, h6]
  · intro dOld dNew resp s e hparse h1 h2 h3 h4 h5 h6
    simp only [resourceAccessUpdate, hparse]
    split <;> simp [h1, h2, h3, h4, h5, h6]
  · intro dOld dNew resp s e hparse h1 h2 h3 h4 h5 h6
    simp only [resourceAccessUpdate, hparse]
    split <;> simp [h1, h2, h3, h4, h5, h6]

/-- Witness for C5 at concrete inputs: a spec-only virtual node change issues
exactly one `UpdateVirtualNode` call and no tag call; a home-directory-only
access change issues exactly one `UpdateAccess` call carrying only that
group. -/
theorem claim_C5_update_minimality_witness :
    (resourceVirtualNodeUpdate
      { id := "uid-1", isNew := false, name := "n1", meshName := "m1", meshOwner := "",
        spec := ["s1"], arn := "a", createdDate := "", lastUpdatedDate := "",
        resourceOwner := "", tags := [], tagsAll := [("k", "v")] }
      { id := "uid-1", isNew := false, name := "n1", meshName := "m1", meshOwner := "",
        spec := ["s2"], arn := "a", createdDate := "", lastUpdatedDate := "",
        resourceOwner := "", tags := [], tagsAll := [("k", "v")] }
      (fun _ => none) none).1
      = [VNodeMutCall.updateVirtualNode
          { meshName := "m1", virtualNodeName := "n1", spec := some "s2",
            meshOwner := none }] ∧
    (resourceAccessUpdate
      { id := "s-1/e-1", isNew := false, externalId := "e-1", homeDirectory := "h1",
        homeDirectoryMappings := [], homeDirectoryType := "PATH", policy := "",
        posixProfile := [], role := "r", serverId := "s-1" }
      { id := "s-1/e-1", isNew := false, externalId := "e-1", homeDirectory := "h2",
        homeDirectoryMappings := [], homeDirectoryType := "PATH", policy := "",
        posixProfile := [], role := "r", serverId := "s-1" }
      (fun _ => none)).1
      = [{ externalId := "e-1", serverId := "s-1", homeDirectory := some "h2",
           homeDirectoryMappings := none, homeDirectoryType := none,
           policy := none, posixProfile := none, role := none }] :=
  ⟨claim_C5_update_minimality.1 _ _ (fun _ => none) none (by decide) rfl,
   claim_C5_update_minimality.2.2.2.1
     { id := "s-1/e-1", isNew := false, externalId := "e-1", homeDirectory := "h1",
       homeDirectoryMappings := [], homeDirectoryType := "PATH", policy := "",
       posixProfile := [], role := "r", serverId := "s-1" }
     { id := "s-1/e-1", isNew := false, externalId := "e-1", homeDirectory := "h2",
       homeDirectoryMappings := [], homeDirectoryType := "PATH", policy := "",
       posixProfile := [], role := "r", serverId := "s-1" }
     (fun _ => none) "s-1" "e-1" rfl (by decide) rfl rfl rfl rfl rfl⟩

/-- The Access id codec round-trips: creating the id from slash-free
components and parsing it back recovers the components. -/
theorem AccessParseResourceID_roundTrip (s e : String)
    (hs : '/' ∉ s.data) (he : '/' ∉ e.data) :
    AccessParseResourceID (AccessCreateResourceID s e) = .ok (s, e) := by
  have hdata : (s ++ "/" ++ e).data = s.data ++ '/' :: e.data := by
    rw [String.data_append, String.data_append, List.append_assoc]
    rfl
  have hsplit : goSplit (s ++ "/" ++ e) '/' = [s, e] := by
    unfold goSplit
    rw [hdata, goSplitChar_append _ _ _ hs, goSplitChar_no_sep _ _ he]
    rfl
  unfold AccessParseResourceID AccessCreateResourceID
  rw [hsplit]

/-- C6: an import reference must split into exactly two `/`-separated
components before any remote call: `"meshA/nodeB"` parses to
`("meshA", "nodeB")` (and drives the single describe call with exactly those
components), while one- or three-component references fail with the
malformed-reference error and zero remote calls; the Transfer Access id
codec behaves the same way (its passthrough importer defers the validation
to Read, which checks the id before its remote call), and parsing inverts
`AccessCreateResourceID` on slash-free components. -/
theorem claim_C6_import_reference_format :
    (∀ (describe : DescribeVirtualNodeInput → Except AwsError VirtualNodeData),
      (resourceVirtualNodeImport "meshA/nodeB" describe).2
        = [{ meshName := "meshA", virtualNodeName := "nodeB", meshOwner := none }]) ∧
    (∀ (describe : DescribeVirtualNodeInput → Except AwsError VirtualNodeData),
      resourceVirtualNodeImport "meshA" describe
        = (.error "wrong format of import ID (meshA), use: 'mesh-name/virtual-node-name'",
           [])) ∧
    (∀ (describe : DescribeVirtualNodeInput → Except AwsError VirtualNodeData),
      resourceVirtualNodeImport "meshA/nodeB/extra" describe
        = (.error
            "wrong format of import ID (meshA/nodeB/extra), use: 'mesh-name/virtual-node-name'",
           [])) ∧
    (∀ (id : String) (describe : DescribeVirtualNodeInput → Except AwsError VirtualNodeData),
      (goSplit id '/').length ≠ 2 →
      resourceVirtualNodeImport id describe
        = (.error ("wrong format of import ID (" ++ id ++
            "), use: 'mesh-name/virtual-node-name'"), [])) ∧
    (∀ (s e : String), '/' ∉ s.data → '/' ∉ e.data →
      AccessParseResourceID (AccessCreateResourceID s e) = .ok (s, e)) ∧
    (AccessParseResourceID "meshA/nodeB" = .ok ("meshA", "nodeB")) ∧
    (AccessParseResourceID "meshA"
      = .error "unexpected format for ID (meshA), expected SERVERID/EXTERNALID") ∧
    (AccessParseResourceID "meshA/nodeB/extra"
      = .error "unexpected format for ID (meshA/nodeB/extra), expected SERVERID/EXTERNALID") ∧
    (∀ (d : AccessState) (describe : String × String → Nat → Except AwsError DescribedAccess)
       (fuel : Nat) (msg : String),
      AccessParseResourceID d.id = .error msg →
      resourceAccessRead d describe fuel = (d, some "parsing Transfer Access ID", 0)) := by
  refine ⟨?_, ?_, ?_, ?_, ?_, ?_, ?_, ?_, ?_⟩
  · intro describe
    simp only [resourceVirtualNodeImport]
    rw [if_pos (by decide)]
    simp only [show (goSplit "meshA/nodeB" '/').getD 0 "" = "meshA" from rfl,
      show (goSplit "meshA/nodeB" '/').getD 1 "" = "nodeB" from rfl]
    cases describe { meshName := "meshA", virtualNodeName := "nodeB", meshOwner := none } <;>
      rfl
  · intro describe
    simp only [resourceVirtualNodeImport]
    rw [if_neg (by decide)]
    rfl
  · intro describe
    simp only [resourceVirtualNodeImport]
    rw [if_neg (by decide)]
    rfl
  · intro id describe h
    simp only [resourceVirtualNodeImport]
    rw [if_neg h]
  · exact AccessParseResourceID_roundTrip
  · rfl
  · rfl
  · rfl
  · intro d describe fuel msg hparse
    simp only [resourceAccessRead, hparse]

/-- Witness for C6 at concrete inputs: the two-component vnode reference
drives the describe call with its components; a one-component access id makes
Read fail before any remote call; the access id codec round-trips on concrete
slash-free components. -/
theorem claim_C6_import_reference_format_witness :
    (resourceVirtualNodeImport "meshA/nodeB" (fun _ => .error .notFound)).2
      = [{ meshName := "meshA", virtualNodeName := "nodeB", meshOwner := none }] ∧
    resourceAccessRead
      { id := "justone", isNew := false, externalId := "", homeDirectory := "",
        homeDirectoryMappings := [], homeDirectoryType := "", policy := "",
        posixProfile := [], role := "", serverId := "" }
      (fun _ _ => .error .notFound) 1
      = ({ id := "justone", isNew := false, externalId := "", homeDirectory := "",
           homeDirectoryMappings := [], homeDirectoryType := "", policy := "",
           posixProfile := [], role := "", serverId := "" },
         some "parsing Transfer Access ID", 0) ∧
    AccessParseResourceID (AccessCreateResourceID "srv" "ext") = .ok ("srv", "ext") :=
  ⟨claim_C6_import_reference_format.1 (fun _ => .error .notFound),
   claim_C6_import_reference_format.2.2.2.2.2.2.2.2
     { id := "justone", isNew := false, externalId := "", homeDirectory := "",
       homeDirectoryMappings := [], homeDirectoryType := "", policy := "",
       posixProfile := [], role := "", serverId := "" }
     (fun _ _ => .error .notFound) 1
     "unexpected format for ID (justone), expected SERVERID/EXTERNALID" rfl,
   claim_C6_import_reference_format.2.2.2.2.1 "srv" "ext" (by decide) (by decide)⟩

/-- C7 (evidence): the Virtual Node's identity attributes (`name`,
`mesh_name`, also `mesh_owner`) and the Access's `server_id` are all
`ForceNew`, but `external_id` — the second component of the Access id built
by `AccessCreateResourceID(serverID, externalID)` — is NOT `ForceNew` in the
schema, contradicting the identity-immutability invariant; evaluated at the
failing input (an `external_id`-only change `e1 → e2`), the in-place Update
this permits issues its one `UpdateAccess` call still keyed to the old
`e1` parsed from the unchanged tracked id, with no request field carrying
`e2`, so the change can never converge. -/
theorem claim_C7_identity_forcenew_evidence :
    Schema.forceNewOf Schema.virtualNodeSchema "name" = true ∧
    Schema.forceNewOf Schema.virtualNodeSchema "mesh_name" = true ∧
    Schema.forceNewOf Schema.virtualNodeSchema "mesh_owner" = true ∧
    Schema.forceNewOf Schema.transferAccessSchema "server_id" = true ∧
    "external_id" ∈ Schema.accessIdentityAttrs ∧
    "server_id" ∈ Schema.accessIdentityAttrs ∧
    Schema.forceNewOf Schema.transferAccessSchema "external_id" = false ∧
    (resourceAccessUpdate
      { id := "s-123/e1", isNew := false, externalId := "e1", homeDirectory := "",
        homeDirectoryMappings := [], homeDirectoryType := "PATH", policy := "",
        posixProfile := [], role := "", serverId := "s-123" }
      { id := "s-123/e1", isNew := false, externalId := "e2", homeDirectory := "",
        homeDirectoryMappings := [], homeDirectoryType := "PATH", policy := "",
        posixProfile := [], role := "", serverId := "s-123" }
      (fun _ => none)).1
      = [{ externalId := "e1", serverId := "s-123", homeDirectory := none,
           homeDirectoryMappings := none, homeDirectoryType := none,
           policy := none, posixProfile := none, role := none }] := by
  refine ⟨rfl, rfl, rfl, rfl, by decide, by decide, rfl, by decide⟩

/-- C8: for any schema-valid Access configuration (slash-free identity
components, at most one `posix_profile` block), Create's wire-encoding
followed by Read's wire-decoding against a remote that echoes the create
request yields a tracked state equal to the original configuration in every
non-computed attribute (only the lifecycle bookkeeping `id`/`isNew`
changes); in particular an absent `posix_profile` block stays absent after
the round trip. -/
theorem claim_C8_wire_round_trip :
    ∀ (d : AccessState) (fuel : Nat),
      '/' ∉ d.serverId.data → '/' ∉ d.externalId.data →
      d.posixProfile.length ≤ 1 →
      resourceAccessCreate d (fun _ => none)
        (fun _ _ => .ok (describedOfCreate (resourceAccessCreateInput d))) fuel
        = ({ d with id := AccessCreateResourceID d.serverId d.externalId, isNew := true },
           none, 1) ∧
      (d.posixProfile = [] →
        (resourceAccessCreate d (fun _ => none)
          (fun _ _ => .ok (describedOfCreate (resourceAccessCreateInput d))) fuel).1.posixProfile
          = []) := by
  intro d fuel hs he hp
  have hparse := AccessParseResourceID_roundTrip d.serverId d.externalId hs he
  have hmain : resourceAccessCreate d (fun _ => none)
      (fun _ _ => .ok (describedOfCreate (resourceAccessCreateInput d))) fuel
      = ({ d with id := AccessCreateResourceID d.serverId d.externalId, isNew := true },
         none, 1) := by
    simp only [resourceAccessCreate]
    simp only [resourceAccessRead]
    rw [hparse]
    dsimp only
    rw [findAccess_found _ (describedOfCreate (resourceAccessCreateInput d)) 0 fuel 0
      (by omega) (fun j hj => absurd hj (by omega)) rfl]
    have hhd : goStringValue
        (if d.homeDirectory ≠ "" then some d.homeDirectory else none)
        = d.homeDirectory := by
      by_cases h : d.homeDirectory = "" <;> simp [goStringValue, h]
    have hmap : flattenHomeDirectoryMappings
        (if d.homeDirectoryMappings ≠ [] then
          some (expandHomeDirectoryMappings d.homeDirectoryMappings)
        else none) = d.homeDirectoryMappings := by
      by_cases h : d.homeDirectoryMappings = ([] : List HomeDirectoryMapping) <;>
        simp [flattenHomeDirectoryMappings, expandHomeDirectoryMappings, h]
    have hty : goStringValue
        (if d.homeDirectoryType ≠ "" then some d.homeDirectoryType else none)
        = d.homeDirectoryType := by
      by_cases h : d.homeDirectoryType = "" <;> simp [goStringValue, h]
    have hpol : policyToSet d.policy (goStringValue
        (if d.policy ≠ "" then some (normalizeJsonString d.policy) else none))
        = d.policy := by
      by_cases h : d.policy = "" <;>
        simp [policyToSet, normalizeJsonString, goStringValue, h]
    have hpos : flattenUserPOSIXUser
        (if d.posixProfile ≠ [] then expandUserPOSIXUser d.posixProfile else none)
        = d.posixProfile := by
      cases hl : d.posixProfile with
      | nil => simp [flattenUserPOSIXUser, expandUserPOSIXUser]
      | cons p rest =>
        rw [hl] at hp
        cases rest with
        | nil => simp [flattenUserPOSIXUser, expandUserPOSIXUser]
        | cons q r => simp at hp
    simp only [describedOfCreate, resourceAccessCreateInput]
    rw [hhd, hmap, hty, hpol, hpos]
    simp [goStringValue]
  refine ⟨hmain, fun h => ?_⟩
  rw [hmain]
  exact h

/-- Witness for C8 at a concrete configuration with every optional group
present: create-then-read against the echoing remote returns exactly the
original attributes, with only `id`/`isNew` updated. -/
theorem claim_C8_wire_round_trip_witness :
    resourceAccessCreate
      { id := "", isNew := false, externalId := "e-1", homeDirectory := "/home",
        homeDirectoryMappings := [{ entry := "/a", target := "/b" }],
        homeDirectoryType := "PATH", policy := "{}",
        posixProfile := [{ gid := 1, uid := 2, secondaryGids := [3] }],
        role := "arn:aws:iam::123:role/r", serverId := "s-1" }
      (fun _ => none)
      (fun _ _ => .ok (describedOfCreate (resourceAccessCreateInput
        { id := "", isNew := false, externalId := "e-1", homeDirectory := "/home",
          homeDirectoryMappings := [{ entry := "/a", target := "/b" }],
          homeDirectoryType := "PATH", policy := "{}",
          posixProfile := [{ gid := 1, uid := 2, secondaryGids := [3] }],
          role := "arn:aws:iam::123:role/r", serverId := "s-1" }))) 1
      = ({ id := "s-1/e-1", isNew := true, externalId := "e-1", homeDirectory := "/home",
           homeDirectoryMappings := [{ entry := "/a", target := "/b" }],
           homeDirectoryType := "PATH", policy := "{}",
           posixProfile := [{ gid := 1, uid := 2, secondaryGids := [3] }],
           role := "arn:aws:iam::123:role/r", serverId := "s-1" }, none, 1) :=
  (claim_C8_wire_round_trip
    { id := "", isNew := false, externalId := "e-1", homeDirectory := "/home",
      homeDirectoryMappings := [{ entry := "/a", target := "/b" }],
      homeDirectoryType := "PATH", policy := "{}",
      posixProfile := [{ gid := 1, uid := 2, secondaryGids := [3] }],
      role := "arn:aws:iam::123:role/r", serverId := "s-1" }
    1 (by decide) (by decide) (by decide)).1

/-- C9: the write-only `role` attribute is never written by Read — after any
Read, on any path, the tracked `role` is exactly what it was before — while
a successful Read refreshes every other returned attribute from the wire
response (`server_id` from the parsed id, `policy` through
`verify.PolicyToSet`). -/
theorem claim_C9_role_write_only_frame :
    (∀ (d : AccessState) (describe : String × String → Nat → Except AwsError DescribedAccess)
       (fuel : Nat), (resourceAccessRead d describe fuel).1.role = d.role) ∧
    (∀ (d : AccessState) (describe : String × String → Nat → Except AwsError DescribedAccess)
       (fuel : Nat) (s e : String) (access : DescribedAccess),
      AccessParseResourceID d.id = .ok (s, e) →
      describe (s, e) 0 = .ok access →
      resourceAccessRead d describe fuel
        = ({ d with
             externalId := goStringValue access.externalId
             homeDirectory := goStringValue access.homeDirectory
             homeDirectoryMappings := flattenHomeDirectoryMappings access.homeDirectoryMappings
             homeDirectoryType := goStringValue access.homeDirectoryType
             posixProfile := flattenUserPOSIXUser access.posixProfile
             policy := policyToSet d.policy (goStringValue access.policy)
             serverId := s }, none, 1)) := by
  constructor
  · intro d describe fuel
    simp only [resourceAccessRead]
    cases hparse : AccessParseResourceID d.id with
    | error e2 => rfl
    | ok se =>
      obtain ⟨s, e⟩ := se
      dsimp only
      rcases hr : FindAccessByServerIDAndExternalID (describe (s, e)) 0 fuel with ⟨res, n⟩
      cases res with
      | error e2 =>
        dsimp only
        split_ifs <;> rfl
      | ok access => rfl
  · intro d describe fuel s e access hparse hok
    have h1 := findAccess_found (describe (s, e)) access 0 fuel 0 (by omega)
      (fun j hj => absurd hj (by omega)) (by simpa using hok)
    simp only [resourceAccessRead, hparse]
    rw [h1]

/-- Witness for C9 at a concrete input: a Read that finds the object
refreshes every returned attribute from the wire but leaves the configured
`role` exactly as it was. -/
theorem claim_C9_role_write_only_frame_witness :
    resourceAccessRead
      { id := "s-1/e-1", isNew := false, externalId := "e-1", homeDirectory := "old",
        homeDirectoryMappings := [], homeDirectoryType := "PATH", policy := "",
        posixProfile := [], role := "arn:aws:iam::123:role/r", serverId := "s-1" }
      (fun _ _ => .ok ({ externalId := some "e-1", homeDirectory := some "new",
                          homeDirectoryMappings := none,
                          homeDirectoryType := some "LOGICAL", policy := none,
                          posixProfile := none, role := none } : DescribedAccess)) 0
      = ({ id := "s-1/e-1", isNew := false, externalId := "e-1",
           homeDirectory := "new", homeDirectoryMappings := [],
           homeDirectoryType := "LOGICAL", policy := "", posixProfile := [],
           role := "arn:aws:iam::123:role/r", serverId := "s-1" }, none, 1) :=
  claim_C9_role_write_only_frame.2
    { id := "s-1/e-1", isNew := false, externalId := "e-1", homeDirectory := "old",
      homeDirectoryMappings := [], homeDirectoryType := "PATH", policy := "",
      posixProfile := [], role := "arn:aws:iam::123:role/r", serverId := "s-1" }
    (fun _ _ => .ok ({ externalId := some "e-1", homeDirectory := some "new",
                        homeDirectoryMappings := none,
                        homeDirectoryType := some "LOGICAL", policy := none,
                        posixProfile := none, role := none } : DescribedAccess)) 0 "s-1" "e-1"
    { externalId := some "e-1", homeDirectory := some "new",
      homeDirectoryMappings := none, homeDirectoryType := some "LOGICAL",
      policy := none, posixProfile := none, role := none }
    rfl rfl

/-- C10: for the generated WAF list-pages loops (`listByteMatchSetsPages` and
`listWebACLsPages` are the same generated loop): the callback is invoked
exactly once per successfully fetched page, in order; its `lastPage` flag is
true exactly when the page's `NextMarker` is empty; iteration stops with a
`nil` return exactly when the callback returned `false` or `lastPage` held;
a remote-call error is returned immediately, with the failing page never
handed to the callback, and a run ending in an error ends at the failing
call; and on any return every fetched page was passed to the callback. -/
theorem claim_C10_waf_list_pages :
    ∀ (resp : Option String → Except String WafListOutput)
      (fn : WafListOutput → Bool → Bool) (marker : Option String) (fuel : Nat),
      listByteMatchSetsPages resp fn marker fuel = listWebACLsPages resp fn marker fuel ∧
      (listWebACLsPages resp fn marker fuel).2.1.map Prod.fst
        = (listWebACLsPages resp fn marker fuel).1.filterMap (fun c => c.2.toOption) ∧
      (∀ p ∈ (listWebACLsPages resp fn marker fuel).2.1,
        p.2 = (goStringValue p.1.nextMarker == "")) ∧
      (∀ p ∈ (listWebACLsPages resp fn marker fuel).2.1.dropLast,
        fn p.1 p.2 = true ∧ p.2 = false) ∧
      ((listWebACLsPages resp fn marker fuel).2.2 = .ok ↔
        ∃ p, (listWebACLsPages resp fn marker fuel).2.1.getLast? = some p ∧
          (fn p.1 p.2 = false ∨ p.2 = true)) ∧
      (∀ e, 0 < fuel → resp marker = .error e →
        listWebACLsPages resp fn marker fuel = ([(marker, .error e)], [], .remoteErr e)) ∧
      (∀ e, (listWebACLsPages resp fn marker fuel).2.2 = .remoteErr e →
        ∃ m, (listWebACLsPages resp fn marker fuel).1.getLast? = some (m, .error e)) :=
  fun resp fn marker fuel =>
    ⟨rfl,
     listPagesLoop_trace_fetched resp fn fuel marker,
     listPagesLoop_lastPage resp fn fuel marker,
     listPagesLoop_continues resp fn fuel marker,
     listPagesLoop_ok_iff resp fn fuel marker,
     fun e hf h => listPagesLoop_error_first resp fn marker fuel e hf h,
     fun e hk => listPagesLoop_remoteErr_last resp fn fuel marker e hk⟩

/-- Witness for C10 at concrete inputs: a two-page run (second page with an
empty `NextMarker`) invokes the callback on both pages with the right
`lastPage` flags and returns `nil`; an immediately failing remote gives the
error back with no callback invocation. -/
theorem claim_C10_waf_list_pages_witness :
    listWebACLsPages
      (fun m => if m = none then .ok { nextMarker := some "m1", items := ["a"] }
        else .ok { nextMarker := none, items := ["b"] })
      (fun _ _ => true) none 5
      = ([(none, .ok { nextMarker := some "m1", items := ["a"] }),
          (some "m1", .ok { nextMarker := none, items := ["b"] })],
         [({ nextMarker := some "m1", items := ["a"] }, false),
          ({ nextMarker := none, items := ["b"] }, true)],
         .ok) ∧
    listWebACLsPages (fun _ => .error "boom") (fun _ _ => true) none 3
      = ([(none, .error "boom")], [], .remoteErr "boom") :=
  ⟨rfl,
   (claim_C10_waf_list_pages (fun _ => .error "boom") (fun _ _ => true) none
     3).2.2.2.2.2.1 "boom" (by omega) rfl⟩
